import Mathlib

/-!
# GPUHideSeek manager (src/mgr.cpp)

A shallow embedding of `src/mgr.cpp`: the catalog load (`loadPhysicsObjects`,
the render-object imports of `Manager::Impl::init`), backend construction,
`Manager::step` and the tensor accessors.

Conventions of the embedding.

* Library calls whose code lives outside `mgr.cpp` (the object importer, the
  physics loader, the two executors, the accelerator runtime) are fields of an
  environment `Env`: the theorems hold for every environment.
* A process abort is an `Except.error`. The aborts of `init` are the ones the
  source spells out (`FATAL`, `REQ_CUDA`) plus an abort raised inside
  `loadHullFromDisk`, the only way that call can fail since it returns a
  `LoadedHull` by value.
* `#ifdef MADRONA_CUDA_SUPPORT` is the boolean `Build.cudaSupport`; `DATA_DIR`,
  the `consts::` maxima, and the kernel source list are the other build inputs.
* `static_cast` to the variant that the object is not is undefined behaviour
  and is the `Fault.badCast` outcome; it never occurs on a constructed Manager.
* `float` constants are the rationals they denote exactly; the one rounding
  operation of the file, the division `12.f / Vector3`, is `Build.fdiv`.
* Calls made on a backend are recorded in a call log next to the result.
-/

namespace GPUHideSeek

/-! ## Plain data -/

/-- A raw address (`void *`, `T *`); `0` is `nullptr`. -/
abbrev Ptr := Nat

/-- The null pointer. -/
def nullptr : Ptr := 0

/-- A `float` value, as the rational it denotes. -/
abbrev F32 := ℚ

/-- `FLT_MAX`, the largest finite binary32 value. -/
def FLT_MAX : F32 := (2 ^ 24 - 1) * 2 ^ 104

/-- `madrona::math::Vector3`. -/
structure Vector3 where
  x : F32
  y : F32
  z : F32
deriving DecidableEq, Repr

/-- `float / Vector3`: component-wise, with the machine division `fdiv`. -/
def Vector3.rdiv (fdiv : F32 → F32 → F32) (a : F32) (v : Vector3) : Vector3 :=
  ⟨fdiv a v.x, fdiv a v.y, fdiv a v.z⟩

/-- `madrona::phys::RigidBodyMetadata`. -/
structure RigidBodyMetadata where
  invInertiaTensor : Vector3
  invMass : F32
  muS : F32
  muD : F32
deriving DecidableEq, Repr

/-- `madrona::phys::AABB`. -/
structure AABB where
  pMin : Vector3
  pMax : Vector3
deriving DecidableEq, Repr

/-- A half-edge mesh owned by the physics loader, known here by its handle. -/
structure HalfEdgeMesh where
  handle : Nat
deriving DecidableEq, Repr

/-- `madrona::phys::CollisionPrimitive`: the type tag with its payload. -/
inductive CollisionPrimitive where
  | Sphere (radius : F32)
  | Hull (halfEdgeMesh : HalfEdgeMesh)
  | Plane
deriving DecidableEq, Repr

/-- `CollisionPrimitive::Type`. -/
inductive PrimitiveType where
  | Sphere
  | Hull
  | Plane
deriving DecidableEq, Repr

/-- `prim.type`. -/
def CollisionPrimitive.type : CollisionPrimitive → PrimitiveType
  | .Sphere _ => .Sphere
  | .Hull _ => .Hull
  | .Plane => .Plane

/-- `PhysicsLoader::LoadedHull`. -/
structure LoadedHull where
  aabb : AABB
  collisionMesh : HalfEdgeMesh
deriving DecidableEq, Repr

/-- `std::filesystem::path(DATA_DIR) / file`. -/
structure Path where
  dir : String
  file : String
deriving DecidableEq, Repr

/-- The meshes of an imported object, known here by their handle. -/
abbrev MeshSpan := Nat

/-- `madrona::imp::ImportedObject`. -/
structure ImportedObject where
  meshes : MeshSpan
deriving DecidableEq, Repr

/-- `madrona::imp::SourceObject`. -/
structure SourceObject where
  meshes : MeshSpan
deriving DecidableEq, Repr

/-- `madrona::ExecMode`. -/
inductive ExecMode where
  | CPU
  | CUDA
deriving DecidableEq, Repr

/-- Modelled from the spec: `Manager::Config` is declared in `mgr.hpp`, which
is not among the sources; the fields are the ones `mgr.cpp` reads and the
configuration surface lists. The unsigned fields are naturals: their
conversion to `int64_t` is exact. -/
structure Config where
  execMode : ExecMode
  gpuID : Int
  numWorlds : Nat
  minEntitiesPerWorld : Nat
  maxEntitiesPerWorld : Nat
  renderWidth : Nat
  renderHeight : Nat
  enableRender : Bool
  debugCompile : Bool
deriving DecidableEq, Repr

/-- `GPUHideSeek::Config` of `sim.hpp`, the user config handed to the
executors: `app_cfg` holds `cfg.enableRender`. -/
structure AppConfig where
  enableRender : Bool
deriving DecidableEq, Repr

/-- `PhysicsLoader::StorageType`. -/
inductive StorageType where
  | CPU
  | CUDA
deriving DecidableEq, Repr

/-- `render::CameraMode`. -/
inductive CameraMode where
  | Perspective
  | None
deriving DecidableEq, Repr

/-- `CompileConfig::OptMode`, the two values `init` chooses between. -/
inductive OptMode where
  | Debug
  | LTO
deriving DecidableEq, Repr

/-- `CompileConfig::Executor`. -/
inductive ExecutorKind where
  | TaskGraph
  | JobSystem
deriving DecidableEq, Repr

/-- `WorldInit` of `sim.hpp`, as `init` brace-initialises it. -/
structure WorldInit where
  episodeMgr : Ptr
  rigidBodyObjMgr : Ptr
  minEntitiesPerWorld : Nat
  maxEntitiesPerWorld : Nat
deriving DecidableEq, Repr

/-- The `consts::` maxima of `sim.hpp`, taken as build inputs. -/
structure Consts where
  maxAgents : Int
  maxBoxes : Int
  maxRamps : Int
deriving DecidableEq, Repr

/-- The `sizeof` and `alignof` values `init` passes on. -/
structure Layout where
  sizeofEpisodeManager : Nat
  sizeofWorldInit : Nat
  sizeofAppConfig : Nat
  sizeofSim : Nat
  alignofSim : Nat
deriving DecidableEq, Repr

/-- What is fixed when `mgr.cpp` is compiled. -/
structure Build where
  cudaSupport : Bool
  dataDir : String
  consts : Consts
  layout : Layout
  srcList : List String
  compileFlags : List String
  fdiv : F32 → F32 → F32

/-- `std::filesystem::path(DATA_DIR) / file`. -/
def dataPath (b : Build) (file : String) : Path := ⟨b.dataDir, file⟩

/-! ## The physics loader -/

/-- `madrona::phys::PhysicsLoader`: its constructor arguments, the address of
its object manager, and the arrays handed to `loadObjects`. -/
structure PhysicsLoader where
  storageType : StorageType
  maxObjects : Nat
  objMgrAddr : Ptr
  metadatas : List RigidBodyMetadata
  aabbs : List AABB
  prims : List CollisionPrimitive
  numObjs : Nat
deriving DecidableEq, Repr

/-- `loader.loadObjects(metadatas, aabbs, prims, num_objs)`. -/
def PhysicsLoader.loadObjects (loader : PhysicsLoader)
    (metadatas : List RigidBodyMetadata) (aabbs : List AABB)
    (prims : List CollisionPrimitive) (numObjs : Nat) : PhysicsLoader :=
  { loader with
    metadatas := loader.metadatas ++ metadatas
    aabbs := loader.aabbs ++ aabbs
    prims := loader.prims ++ prims
    numObjs := loader.numObjs + numObjs }

/-- Why construction stopped. -/
inductive Abort where
  | fatal (msg : String)
  | hullLoader (diagnostic : String)
  | cudaError (code : Nat)
deriving DecidableEq, Repr

/-! ## The two executors -/

/-- The state configuration `init` hands to `MWCudaExecutor`, field by field.
`worldInitPtr` is the array behind `world_inits.data()`, an entry being `none`
until it is assigned; `userConfigPtr` is the `app_cfg` it points to. -/
structure StateConfig where
  worldInitPtr : List (Option WorldInit)
  numWorldInitBytes : Nat
  userConfigPtr : AppConfig
  numUserConfigBytes : Nat
  numWorldDataBytes : Nat
  worldDataAlignment : Nat
  numWorlds : Nat
  maxViewsPerWorld : Int
  numExportedBuffers : Nat
  gpuID : Nat
  cameraMode : CameraMode
  renderWidth : Nat
  renderHeight : Nat
deriving DecidableEq, Repr

/-- The compile configuration `init` hands to `MWCudaExecutor`, in the order of
the positional initialiser. -/
structure CompileConfig where
  entryName : String
  userSources : List String
  userCompileFlags : List String
  optMode : OptMode
  execKind : ExecutorKind
deriving DecidableEq, Repr

/-- `madrona::MWCudaExecutor`: what it was built from, the render objects given
to `loadObjects` (if that was called), and the number of completed `run`s. -/
structure MWCudaExecutor where
  stateCfg : StateConfig
  compileCfg : CompileConfig
  renderObjects : Option (List SourceObject)
  numRuns : Nat
deriving DecidableEq, Repr

/-- `ThreadPoolExecutor::Config`, field by field. -/
structure ThreadPoolConfig where
  numWorlds : Nat
  maxViewsPerWorld : Int
  maxInstancesPerWorld : Nat
  renderWidth : Nat
  renderHeight : Nat
  maxObjects : Nat
  numExportedBuffers : Nat
  cameraMode : CameraMode
  renderGPUID : Int
deriving DecidableEq, Repr

/-- `CPUImpl::TaskGraphT`, the host executor: what it was built from, the
render objects given to `loadObjects`, and the number of completed `run`s. -/
structure TaskGraphT where
  cfg : ThreadPoolConfig
  userCfg : AppConfig
  worldInits : List (Option WorldInit)
  renderObjects : Option (List SourceObject)
  numRuns : Nat
deriving DecidableEq, Repr

/-- `mwGPU.run()`: one tick of every world. -/
def MWCudaExecutor.run (e : MWCudaExecutor) : MWCudaExecutor :=
  { e with numRuns := e.numRuns + 1 }

/-- `cpuExec.run()`: one tick of every world. -/
def TaskGraphT.run (e : TaskGraphT) : TaskGraphT :=
  { e with numRuns := e.numRuns + 1 }

/-- `mwgpu_exec.loadObjects(renderer_objects)`. -/
def MWCudaExecutor.loadObjects (e : MWCudaExecutor) (objs : List SourceObject) :
    MWCudaExecutor :=
  { e with renderObjects := some objs }

/-- `cpuExec.loadObjects(renderer_objects)`. -/
def TaskGraphT.loadObjects (e : TaskGraphT) (objs : List SourceObject) : TaskGraphT :=
  { e with renderObjects := some objs }

/-! ## The environment -/

/-- The library calls of `mgr.cpp`, each an arbitrary function of what the
caller passes (and, for the buffer lookups, of the executor asked).
`loadHullFromDisk` answers with the hull, or with the diagnostic of the abort
it raised itself; `cudaMemset` answers with a `cudaError_t`, `0` being
`cudaSuccess`. -/
structure Env where
  importObject : Path → Option ImportedObject
  loadHullFromDisk : Path → Except String LoadedHull
  allocGPU : Nat → Ptr
  cudaMemset : Ptr → Nat → Nat → Nat
  newEpisodeManager : Ptr
  objMgrAddr : StorageType → Ptr
  cudaGetExported : MWCudaExecutor → Int → Ptr
  cudaDepthObservations : MWCudaExecutor → Ptr
  cudaRgbObservations : MWCudaExecutor → Ptr
  cpuGetExported : TaskGraphT → Int → Ptr
  cpuDepthObservations : TaskGraphT → Ptr
  cpuRgbObservations : TaskGraphT → Ptr

/-- `PhysicsLoader phys_loader(storage, max_objects)`. -/
def PhysicsLoader.new (env : Env) (storage : StorageType) (maxObjects : Nat) :
    PhysicsLoader :=
  { storageType := storage, maxObjects := maxObjects, objMgrAddr := env.objMgrAddr storage,
    metadatas := [], aabbs := [], prims := [], numObjs := 0 }

/-- `loader.loadHullFromDisk((path(DATA_DIR) / file).c_str())`; an abort inside
the loader ends the process. -/
def loadHull (b : Build) (env : Env) (file : String) : Except Abort LoadedHull :=
  match env.loadHullFromDisk (dataPath b file) with
  | .ok hull => .ok hull
  | .error diagnostic => .error (.hullLoader diagnostic)

/-- `loadPhysicsObjects(loader)`: the three arrays are filled entry by entry,
then handed to `loadObjects`. -/
def loadPhysicsObjects (b : Build) (env : Env) (loader : PhysicsLoader) :
    Except Abort PhysicsLoader := do
  let metadatas : List RigidBodyMetadata := []
  let aabbs : List AABB := []
  let prims : List CollisionPrimitive := []
  -- Sphere: (0)
  let metadatas := metadatas ++
    [{ invInertiaTensor := ⟨2.5, 2.5, 2.5⟩, invMass := 1, muS := 0.5, muD := 0.5 }]
  let aabbs := aabbs ++ [{ pMin := ⟨-1, -1, -1⟩, pMax := ⟨1, 1, 1⟩ }]
  let prims := prims ++ [CollisionPrimitive.Sphere 1]
  -- Plane: (1)
  let metadatas := metadatas ++
    [{ invInertiaTensor := ⟨0, 0, 0⟩, invMass := 0, muS := 0.5, muD := 0.5 }]
  let aabbs := aabbs ++
    [{ pMin := ⟨-FLT_MAX, -FLT_MAX, -FLT_MAX⟩, pMax := ⟨FLT_MAX, FLT_MAX, 0⟩ }]
  let prims := prims ++ [CollisionPrimitive.Plane]
  -- Cube: (2)
  let metadatas := metadatas ++
    [{ invInertiaTensor := ⟨1.5, 1.5, 1.5⟩, invMass := 1, muS := 0.5, muD := 0.5 }]
  let cube_hull ← loadHull b env "cube_collision.obj"
  let aabbs := aabbs ++ [cube_hull.aabb]
  let prims := prims ++ [CollisionPrimitive.Hull cube_hull.collisionMesh]
  -- Wall: (3)
  let metadatas := metadatas ++
    [{ invInertiaTensor := ⟨0, 0, 0⟩, invMass := 0, muS := 0.5, muD := 0.5 }]
  let wall_hull ← loadHull b env "wall_collision.obj"
  let aabbs := aabbs ++ [wall_hull.aabb]
  let prims := prims ++ [CollisionPrimitive.Hull wall_hull.collisionMesh]
  -- Cylinder: (4)
  let metadatas := metadatas ++
    [{ invInertiaTensor := ⟨0, 0, 1⟩, invMass := 1, muS := 0.5, muD := 0.5 }]
  let cylinder_hull ← loadHull b env "cylinder_collision.obj"
  let aabbs := aabbs ++ [cylinder_hull.aabb]
  let prims := prims ++ [CollisionPrimitive.Hull cylinder_hull.collisionMesh]
  -- Ramp (5)
  let metadatas := metadatas ++
    [{ invInertiaTensor := ⟨1.5, 1.5, 1.5⟩, invMass := 1, muS := 0.5, muD := 0.5 }]
  let ramp_hull ← loadHull b env "ramp_collision.obj"
  let aabbs := aabbs ++ [ramp_hull.aabb]
  let prims := prims ++ [CollisionPrimitive.Hull ramp_hull.collisionMesh]
  -- Elongated box (6)
  let width : F32 := 8
  let height : F32 := 2
  let depth : F32 := 1.5
  let metadatas := metadatas ++
    [{ invInertiaTensor := Vector3.rdiv b.fdiv 12
         ⟨height * height + depth * depth,
          height * height + width * width,
          width * width + depth * depth⟩,
       invMass := 1, muS := 0.5, muD := 0.5 }]
  let elongated_box_hull ← loadHull b env "elongated_collision.obj"
  let aabbs := aabbs ++ [elongated_box_hull.aabb]
  let prims := prims ++ [CollisionPrimitive.Hull elongated_box_hull.collisionMesh]
  return loader.loadObjects metadatas aabbs prims metadatas.length

/-! ## Construction -/

/-- `importObject` of a render mesh followed by the `has_value` check:
`FATAL(msg)` when nothing was imported. -/
def importOrFatal (b : Build) (env : Env) (file : String) (msg : String) :
    Except Abort ImportedObject :=
  match env.importObject (dataPath b file) with
  | some obj => .ok obj
  | none => .error (.fatal msg)

/-- The seven import blocks at the head of `Impl::init`: the filled
`imported_renderer_objs`. -/
def importRendererObjs (b : Build) (env : Env) : Except Abort (List ImportedObject) := do
  let imported_renderer_objs : List ImportedObject := []
  let sphere_obj ← importOrFatal b env "sphere.obj" "Failed to load sphere"
  let imported_renderer_objs := imported_renderer_objs ++ [sphere_obj]
  let plane_obj ← importOrFatal b env "plane.obj" "Failed to load plane"
  let imported_renderer_objs := imported_renderer_objs ++ [plane_obj]
  let cube_obj ← importOrFatal b env "cube_render.obj" "Failed to load cube"
  let imported_renderer_objs := imported_renderer_objs ++ [cube_obj]
  let wall_obj ← importOrFatal b env "wall_render.obj" "Failed to load wall"
  let imported_renderer_objs := imported_renderer_objs ++ [wall_obj]
  let cylinder_obj ← importOrFatal b env "cylinder_render.obj" "Failed to load cylinder"
  let imported_renderer_objs := imported_renderer_objs ++ [cylinder_obj]
  let ramp_obj ← importOrFatal b env "ramp_render.obj" "Failed to load ramp"
  let imported_renderer_objs := imported_renderer_objs ++ [ramp_obj]
  let ramp_obj ← importOrFatal b env "elongated_render.obj" "Failed to load elongated"
  let imported_renderer_objs := imported_renderer_objs ++ [ramp_obj]
  return imported_renderer_objs

/-- The loop `for (i = 0; i < numWorlds; i++) world_inits[i] = WorldInit {..}`
over a freshly allocated `HeapArray<WorldInit>(numWorlds)`. -/
def buildWorldInits (numWorlds : Nat) (init : WorldInit) : List (Option WorldInit) :=
  (List.range numWorlds).foldl (fun world_inits i => world_inits.set i (some init))
    (List.replicate numWorlds none)

/-- The camera mode both branches compute from `cfg.enableRender`. -/
def cameraModeOf (cfg : Config) : CameraMode :=
  if cfg.enableRender then CameraMode.Perspective else CameraMode.None

/-- `struct Manager::Impl`: the members shared by both variants. -/
structure ImplBase where
  cfg : Config
  physicsLoader : PhysicsLoader
  episodeMgr : Ptr
deriving DecidableEq, Repr

/-- The object behind `impl_`: a `CPUImpl` or a `CUDAImpl`. -/
inductive Impl where
  | CPUImpl (base : ImplBase) (cpuExec : TaskGraphT)
  | CUDAImpl (base : ImplBase) (mwGPU : MWCudaExecutor)
deriving DecidableEq, Repr

/-- The `Impl` subobject. -/
def Impl.base : Impl → ImplBase
  | .CPUImpl base _ => base
  | .CUDAImpl base _ => base

/-- `impl_->cfg`. -/
def Impl.cfg (impl : Impl) : Config := impl.base.cfg

/-- `Manager::Impl::init(cfg)`. The `HostEventLogging` calls only trace and are
left out. -/
def Impl.init (b : Build) (env : Env) (cfg : Config) : Except Abort Impl := do
  let imported_renderer_objs ← importRendererObjs b env
  let renderer_objects : List SourceObject :=
    imported_renderer_objs.map (fun imported_obj => ⟨imported_obj.meshes⟩)
  let app_cfg : AppConfig := ⟨cfg.enableRender⟩
  match cfg.execMode with
  | .CUDA =>
    if b.cudaSupport then do
      let episode_mgr := env.allocGPU b.layout.sizeofEpisodeManager
      if env.cudaMemset episode_mgr 0 b.layout.sizeofEpisodeManager ≠ 0 then
        throw (Abort.cudaError (env.cudaMemset episode_mgr 0 b.layout.sizeofEpisodeManager))
      let phys_loader ← loadPhysicsObjects b env (PhysicsLoader.new env .CUDA 10)
      let phys_obj_mgr := phys_loader.objMgrAddr
      let world_inits := buildWorldInits cfg.numWorlds
        ⟨episode_mgr, phys_obj_mgr, cfg.minEntitiesPerWorld, cfg.maxEntitiesPerWorld⟩
      let mwgpu_exec : MWCudaExecutor :=
        { stateCfg :=
            { worldInitPtr := world_inits
              numWorldInitBytes := b.layout.sizeofWorldInit
              userConfigPtr := app_cfg
              numUserConfigBytes := b.layout.sizeofAppConfig
              numWorldDataBytes := b.layout.sizeofSim
              worldDataAlignment := b.layout.alignofSim
              numWorlds := cfg.numWorlds
              maxViewsPerWorld := b.consts.maxAgents
              numExportedBuffers := 16
              gpuID := (cfg.gpuID % 2 ^ 32).toNat
              cameraMode := cameraModeOf cfg
              renderWidth := cfg.renderWidth
              renderHeight := cfg.renderHeight }
          compileCfg :=
            { entryName := ""
              userSources := b.srcList
              userCompileFlags := b.compileFlags
              optMode := if cfg.debugCompile then OptMode.Debug else OptMode.LTO
              execKind := ExecutorKind.TaskGraph }
          renderObjects := none
          numRuns := 0 }
      let mwgpu_exec :=
        if cfg.enableRender then mwgpu_exec.loadObjects renderer_objects else mwgpu_exec
      return Impl.CUDAImpl ⟨cfg, phys_loader, episode_mgr⟩ mwgpu_exec
    else
      throw (Abort.fatal "Madrona was not compiled with CUDA support")
  | .CPU => do
    let episode_mgr := env.newEpisodeManager
    let phys_loader ← loadPhysicsObjects b env (PhysicsLoader.new env .CPU 10)
    let phys_obj_mgr := phys_loader.objMgrAddr
    let world_inits := buildWorldInits cfg.numWorlds
      ⟨episode_mgr, phys_obj_mgr, cfg.minEntitiesPerWorld, cfg.maxEntitiesPerWorld⟩
    let cpuExec : TaskGraphT :=
      { cfg :=
          { numWorlds := cfg.numWorlds
            maxViewsPerWorld := b.consts.maxAgents
            maxInstancesPerWorld := 1024
            renderWidth := cfg.renderWidth
            renderHeight := cfg.renderHeight
            maxObjects := 50
            numExportedBuffers := 16
            cameraMode := cameraModeOf cfg
            renderGPUID := cfg.gpuID }
        userCfg := app_cfg
        worldInits := world_inits
        renderObjects := none
        numRuns := 0 }
    let cpuExec := if cfg.enableRender then cpuExec.loadObjects renderer_objects else cpuExec
    return Impl.CPUImpl ⟨cfg, phys_loader, episode_mgr⟩ cpuExec

/-- `class Manager`: the one member `impl_`. -/
structure Manager where
  impl_ : Impl
deriving DecidableEq, Repr

/-- `Manager::Manager(cfg)`: `impl_(Impl::init(cfg))`. -/
def Manager.new (b : Build) (env : Env) (cfg : Config) : Except Abort Manager :=
  match Impl.init b env cfg with
  | .ok impl => .ok ⟨impl⟩
  | .error a => .error a

/-! ## Stepping and the tensor accessors -/

/-- `madrona::py::Tensor::ElementType`. -/
inductive ElementType where
  | UInt8
  | Int8
  | Int16
  | Int32
  | Int64
  | Float16
  | Float32
deriving DecidableEq, Repr

/-- `madrona::py::Tensor`, as its constructor is given it: the handle, the
element type, the dimensions, and the device tag (`none` is host memory). -/
structure Tensor where
  devPtr : Ptr
  type : ElementType
  dims : List Int
  gpuID : Option Int
deriving DecidableEq, Repr

/-- Undefined behaviour reached by a member function. -/
inductive Fault where
  | badCast
deriving DecidableEq, Repr

/-- A call made on one of the two executors. -/
inductive BackendCall where
  | cudaRun
  | cpuRun
  | cudaGetExported (slot : Int)
  | cpuGetExported (slot : Int)
  | cudaDepthObservations
  | cpuDepthObservations
  | cudaRgbObservations
  | cpuRgbObservations
deriving DecidableEq, Repr

/-- `Manager::step()`: the Manager after the call and the calls it made. -/
def Manager.step (b : Build) (m : Manager) : Except Fault (Manager × List BackendCall) :=
  match m.impl_.cfg.execMode with
  | .CUDA =>
    if b.cudaSupport then
      match m.impl_ with
      | .CUDAImpl base mwGPU => .ok (⟨.CUDAImpl base mwGPU.run⟩, [.cudaRun])
      | .CPUImpl _ _ => .error .badCast
    else .ok (m, [])
  | .CPU =>
    match m.impl_ with
    | .CPUImpl base cpuExec => .ok (⟨.CPUImpl base cpuExec.run⟩, [.cpuRun])
    | .CUDAImpl _ _ => .error .badCast

/-- The Manager after `n` calls of `step()` and all calls made, oldest first. -/
def Manager.stepN (b : Build) : Nat → Manager → Except Fault (Manager × List BackendCall)
  | 0, m => .ok (m, [])
  | n + 1, m =>
    match Manager.step b m with
    | .ok (m1, calls1) =>
      match Manager.stepN b n m1 with
      | .ok (m2, calls2) => .ok (m2, calls1 ++ calls2)
      | .error f => .error f
    | .error f => .error f

/-- `Manager::exportStateTensor(slot, type, dimensions)`. -/
def Manager.exportStateTensor (b : Build) (env : Env) (m : Manager) (slot : Int)
    (type : ElementType) (dimensions : List Int) :
    Except Fault (Tensor × List BackendCall) :=
  let dev_ptr : Ptr := nullptr
  let gpu_id : Option Int := none
  if m.impl_.cfg.execMode = .CUDA then
    if b.cudaSupport then
      match m.impl_ with
      | .CUDAImpl _ mwGPU =>
        .ok (⟨env.cudaGetExported mwGPU slot, type, dimensions, some m.impl_.cfg.gpuID⟩,
             [.cudaGetExported slot])
      | .CPUImpl _ _ => .error .badCast
    else .ok (⟨dev_ptr, type, dimensions, gpu_id⟩, [])
  else
    match m.impl_ with
    | .CPUImpl _ cpuExec =>
      .ok (⟨env.cpuGetExported cpuExec slot, type, dimensions, gpu_id⟩, [.cpuGetExported slot])
    | .CUDAImpl _ _ => .error .badCast

/-- `Manager::resetTensor()`. -/
def Manager.resetTensor (b : Build) (env : Env) (m : Manager) :=
  m.exportStateTensor b env 0 .Int32 [m.impl_.cfg.numWorlds, 3]

/-- `Manager::doneTensor()`. -/
def Manager.doneTensor (b : Build) (env : Env) (m : Manager) :=
  m.exportStateTensor b env 1 .Int32 [m.impl_.cfg.numWorlds, 1]

/-- `Manager::prepCounterTensor()`. -/
def Manager.prepCounterTensor (b : Build) (env : Env) (m : Manager) :=
  m.exportStateTensor b env 2 .Int32 [m.impl_.cfg.numWorlds, 1]

/-- `Manager::actionTensor()`. -/
def Manager.actionTensor (b : Build) (env : Env) (m : Manager) :=
  m.exportStateTensor b env 3 .Int32 [m.impl_.cfg.numWorlds, b.consts.maxAgents, 5]

/-- `Manager::rewardTensor()`. -/
def Manager.rewardTensor (b : Build) (env : Env) (m : Manager) :=
  m.exportStateTensor b env 4 .Float32 [m.impl_.cfg.numWorlds, b.consts.maxAgents, 1]

/-- `Manager::agentTypeTensor()`. -/
def Manager.agentTypeTensor (b : Build) (env : Env) (m : Manager) :=
  m.exportStateTensor b env 5 .Int32 [m.impl_.cfg.numWorlds, b.consts.maxAgents, 1]

/-- `Manager::agentMaskTensor()`. -/
def Manager.agentMaskTensor (b : Build) (env : Env) (m : Manager) :=
  m.exportStateTensor b env 6 .Float32 [m.impl_.cfg.numWorlds, b.consts.maxAgents, 1]

/-- `Manager::agentDataTensor()`. -/
def Manager.agentDataTensor (b : Build) (env : Env) (m : Manager) :=
  m.exportStateTensor b env 7 .Float32
    [m.impl_.cfg.numWorlds, b.consts.maxAgents, b.consts.maxAgents - 1, 4]

/-- `Manager::boxDataTensor()`. -/
def Manager.boxDataTensor (b : Build) (env : Env) (m : Manager) :=
  m.exportStateTensor b env 8 .Float32
    [m.impl_.cfg.numWorlds, b.consts.maxAgents, b.consts.maxBoxes, 7]

/-- `Manager::rampDataTensor()`. -/
def Manager.rampDataTensor (b : Build) (env : Env) (m : Manager) :=
  m.exportStateTensor b env 9 .Float32
    [m.impl_.cfg.numWorlds, b.consts.maxAgents, b.consts.maxRamps, 5]

/-- `Manager::visibleAgentsMaskTensor()`. -/
def Manager.visibleAgentsMaskTensor (b : Build) (env : Env) (m : Manager) :=
  m.exportStateTensor b env 10 .Float32
    [m.impl_.cfg.numWorlds, b.consts.maxAgents, b.consts.maxAgents - 1, 1]

/-- `Manager::visibleBoxesMaskTensor()`. -/
def Manager.visibleBoxesMaskTensor (b : Build) (env : Env) (m : Manager) :=
  m.exportStateTensor b env 11 .Float32
    [m.impl_.cfg.numWorlds, b.consts.maxAgents, b.consts.maxBoxes, 1]

/-- `Manager::visibleRampsMaskTensor()`. -/
def Manager.visibleRampsMaskTensor (b : Build) (env : Env) (m : Manager) :=
  m.exportStateTensor b env 12 .Float32
    [m.impl_.cfg.numWorlds, b.consts.maxAgents, b.consts.maxRamps, 1]

/-- `Manager::globalPositionsTensor()`. -/
def Manager.globalPositionsTensor (b : Build) (env : Env) (m : Manager) :=
  m.exportStateTensor b env 13 .Float32
    [m.impl_.cfg.numWorlds, b.consts.maxBoxes + b.consts.maxRamps + b.consts.maxAgents, 2]

/-- `Manager::depthTensor()`. -/
def Manager.depthTensor (b : Build) (env : Env) (m : Manager) :
    Except Fault (Tensor × List BackendCall) :=
  let dev_ptr : Ptr := nullptr
  let gpu_id : Option Int := some m.impl_.cfg.gpuID
  let dims : List Int :=
    [m.impl_.cfg.numWorlds, b.consts.maxAgents, m.impl_.cfg.renderHeight,
     m.impl_.cfg.renderWidth, 1]
  if m.impl_.cfg.execMode = .CUDA then
    if b.cudaSupport then
      match m.impl_ with
      | .CUDAImpl _ mwGPU =>
        .ok (⟨env.cudaDepthObservations mwGPU, .Float32, dims, gpu_id⟩,
             [.cudaDepthObservations])
      | .CPUImpl _ _ => .error .badCast
    else .ok (⟨dev_ptr, .Float32, dims, gpu_id⟩, [])
  else
    match m.impl_ with
    | .CPUImpl _ cpuExec =>
      .ok (⟨env.cpuDepthObservations cpuExec, .Float32, dims, gpu_id⟩,
           [.cpuDepthObservations])
    | .CUDAImpl _ _ => .error .badCast

/-- `Manager::rgbTensor()`. -/
def Manager.rgbTensor (b : Build) (env : Env) (m : Manager) :
    Except Fault (Tensor × List BackendCall) :=
  let dev_ptr : Ptr := nullptr
  let gpu_id : Option Int := some m.impl_.cfg.gpuID
  let dims : List Int :=
    [m.impl_.cfg.numWorlds, b.consts.maxAgents, m.impl_.cfg.renderHeight,
     m.impl_.cfg.renderWidth, 4]
  if m.impl_.cfg.execMode = .CUDA then
    if b.cudaSupport then
      match m.impl_ with
      | .CUDAImpl _ mwGPU =>
        .ok (⟨env.cudaRgbObservations mwGPU, .UInt8, dims, gpu_id⟩, [.cudaRgbObservations])
      | .CPUImpl _ _ => .error .badCast
    else .ok (⟨dev_ptr, .UInt8, dims, gpu_id⟩, [])
  else
    match m.impl_ with
    | .CPUImpl _ cpuExec =>
      .ok (⟨env.cpuRgbObservations cpuExec, .UInt8, dims, gpu_id⟩, [.cpuRgbObservations])
    | .CUDAImpl _ _ => .error .badCast

/-- `Manager::lidarTensor()`. -/
def Manager.lidarTensor (b : Build) (env : Env) (m : Manager) :=
  m.exportStateTensor b env 14 .Float32 [m.impl_.cfg.numWorlds, b.consts.maxAgents, 30]

/-- The names of the seventeen exported views. -/
inductive View where
  | reset | done | prepCounter | action | reward | agentType | agentMask
  | agentData | boxData | rampData | visibleAgentsMask | visibleBoxesMask
  | visibleRampsMask | globalPositions | lidar | depth | rgb
deriving DecidableEq, Repr

/-- The accessor behind each view name. -/
def Manager.view (b : Build) (env : Env) (m : Manager) :
    View → Except Fault (Tensor × List BackendCall)
  | .reset => m.resetTensor b env
  | .done => m.doneTensor b env
  | .prepCounter => m.prepCounterTensor b env
  | .action => m.actionTensor b env
  | .reward => m.rewardTensor b env
  | .agentType => m.agentTypeTensor b env
  | .agentMask => m.agentMaskTensor b env
  | .agentData => m.agentDataTensor b env
  | .boxData => m.boxDataTensor b env
  | .rampData => m.rampDataTensor b env
  | .visibleAgentsMask => m.visibleAgentsMaskTensor b env
  | .visibleBoxesMask => m.visibleBoxesMaskTensor b env
  | .visibleRampsMask => m.visibleRampsMaskTensor b env
  | .globalPositions => m.globalPositionsTensor b env
  | .lidar => m.lidarTensor b env
  | .depth => m.depthTensor b env
  | .rgb => m.rgbTensor b env

/-! ## The export table of the specification -/

/-- The element-type column of the tensor export table (specification, section 6). -/
def exportTableType : View → ElementType
  | .reset => .Int32
  | .done => .Int32
  | .prepCounter => .Int32
  | .action => .Int32
  | .reward => .Float32
  | .agentType => .Int32
  | .agentMask => .Float32
  | .agentData => .Float32
  | .boxData => .Float32
  | .rampData => .Float32
  | .visibleAgentsMask => .Float32
  | .visibleBoxesMask => .Float32
  | .visibleRampsMask => .Float32
  | .globalPositions => .Float32
  | .lidar => .Float32
  | .depth => .Float32
  | .rgb => .UInt8

/-- The shape column of the tensor export table (specification, section 6), with
`W = numWorlds`, `A = maxAgents`, `B = maxBoxes`, `R = maxRamps`. -/
def exportTableShape (W A B R renderHeight renderWidth : Int) : View → List Int
  | .reset => [W, 3]
  | .done => [W, 1]
  | .prepCounter => [W, 1]
  | .action => [W, A, 5]
  | .reward => [W, A, 1]
  | .agentType => [W, A, 1]
  | .agentMask => [W, A, 1]
  | .agentData => [W, A, A - 1, 4]
  | .boxData => [W, A, B, 7]
  | .rampData => [W, A, R, 5]
  | .visibleAgentsMask => [W, A, A - 1, 1]
  | .visibleBoxesMask => [W, A, B, 1]
  | .visibleRampsMask => [W, A, R, 1]
  | .globalPositions => [W, B + R + A, 2]
  | .lidar => [W, A, 30]
  | .depth => [W, A, renderHeight, renderWidth, 1]
  | .rgb => [W, A, renderHeight, renderWidth, 4]

/-! ## Concrete builds, environments and configurations -/

/-- A build without accelerator support, with the maxima 6, 9 and 2. -/
def hostBuild : Build :=
  { cudaSupport := false
    dataDir := "data"
    consts := ⟨6, 9, 2⟩
    layout := ⟨64, 32, 1, 4096, 64⟩
    srcList := ["sim.cpp"]
    compileFlags := []
    fdiv := fun a c => a / c }

/-- The same build with accelerator support compiled in. -/
def cudaBuild : Build := { hostBuild with cudaSupport := true }

/-- An environment in which every file loads and every buffer exists; the image
buffers exist only when the executor was given a camera. -/
def okEnv : Env :=
  { importObject := fun p => some ⟨p.file.length⟩
    loadHullFromDisk := fun p => .ok ⟨⟨⟨-1, -1, -1⟩, ⟨1, 1, 1⟩⟩, ⟨p.file.length⟩⟩
    allocGPU := fun _ => 4096
    cudaMemset := fun _ _ _ => 0
    newEpisodeManager := 8192
    objMgrAddr := fun _ => 12288
    cudaGetExported := fun _ slot => 1000 + slot.toNat
    cudaDepthObservations := fun e => if e.stateCfg.cameraMode = .None then nullptr else 2000
    cudaRgbObservations := fun e => if e.stateCfg.cameraMode = .None then nullptr else 3000
    cpuGetExported := fun _ slot => 4000 + slot.toNat
    cpuDepthObservations := fun e => if e.cfg.cameraMode = .None then nullptr else 5000
    cpuRgbObservations := fun e => if e.cfg.cameraMode = .None then nullptr else 6000 }

/-- Four worlds on the host, device 1 named, rendering disabled, 64 by 64 images
configured. -/
def hostConfig : Config :=
  { execMode := .CPU, gpuID := 1, numWorlds := 4, minEntitiesPerWorld := 1,
    maxEntitiesPerWorld := 10, renderWidth := 64, renderHeight := 64,
    enableRender := false, debugCompile := false }

/-- The same configuration on the accelerator. -/
def cudaConfig : Config := { hostConfig with execMode := .CUDA }

/-! ## Observers of a Manager -/

/-- The variant of the object behind `impl_`, named by the mode it serves. -/
def Manager.variant (m : Manager) : ExecMode :=
  match m.impl_ with
  | .CPUImpl _ _ => .CPU
  | .CUDAImpl _ _ => .CUDA

/-- The number of ticks the backend of this Manager has run. -/
def Manager.numRuns (m : Manager) : Nat :=
  match m.impl_ with
  | .CPUImpl _ cpuExec => cpuExec.numRuns
  | .CUDAImpl _ mwGPU => mwGPU.numRuns

/-- The world-init table the backend of this Manager was built from. -/
def Manager.worldInits (m : Manager) : List (Option WorldInit) :=
  match m.impl_ with
  | .CPUImpl _ cpuExec => cpuExec.worldInits
  | .CUDAImpl _ mwGPU => mwGPU.stateCfg.worldInitPtr

/-- The `numExportedBuffers` the backend of this Manager was configured with. -/
def Manager.numExportedBuffers (m : Manager) : Nat :=
  match m.impl_ with
  | .CPUImpl _ cpuExec => cpuExec.cfg.numExportedBuffers
  | .CUDAImpl _ mwGPU => mwGPU.stateCfg.numExportedBuffers

/-- The camera mode the backend of this Manager was configured with. -/
def Manager.cameraMode (m : Manager) : CameraMode :=
  match m.impl_ with
  | .CPUImpl _ cpuExec => cpuExec.cfg.cameraMode
  | .CUDAImpl _ mwGPU => mwGPU.stateCfg.cameraMode

/-- The render objects the backend of this Manager was given, if any. -/
def Manager.renderObjects (m : Manager) : Option (List SourceObject) :=
  match m.impl_ with
  | .CPUImpl _ cpuExec => cpuExec.renderObjects
  | .CUDAImpl _ mwGPU => mwGPU.renderObjects

/-- The buffer-for-slot lookup of the backend of this Manager. -/
def Manager.getExported (env : Env) (m : Manager) (slot : Int) : Ptr :=
  match m.impl_ with
  | .CPUImpl _ cpuExec => env.cpuGetExported cpuExec slot
  | .CUDAImpl _ mwGPU => env.cudaGetExported mwGPU slot

/-- The depth-buffer lookup of the backend of this Manager. -/
def Manager.depthObservations (env : Env) (m : Manager) : Ptr :=
  match m.impl_ with
  | .CPUImpl _ cpuExec => env.cpuDepthObservations cpuExec
  | .CUDAImpl _ mwGPU => env.cudaDepthObservations mwGPU

/-- The colour-buffer lookup of the backend of this Manager. -/
def Manager.rgbObservations (env : Env) (m : Manager) : Ptr :=
  match m.impl_ with
  | .CPUImpl _ cpuExec => env.cpuRgbObservations cpuExec
  | .CUDAImpl _ mwGPU => env.cudaRgbObservations mwGPU

/-- The `run` call of the executor serving a mode. -/
def runCallOf : ExecMode → BackendCall
  | .CPU => .cpuRun
  | .CUDA => .cudaRun

/-- The buffer-for-slot call of the executor serving a mode. -/
def getExportedCallOf : ExecMode → Int → BackendCall
  | .CPU, slot => .cpuGetExported slot
  | .CUDA, slot => .cudaGetExported slot

/-- The depth-buffer call of the executor serving a mode. -/
def depthCallOf : ExecMode → BackendCall
  | .CPU => .cpuDepthObservations
  | .CUDA => .cudaDepthObservations

/-- The colour-buffer call of the executor serving a mode. -/
def rgbCallOf : ExecMode → BackendCall
  | .CPU => .cpuRgbObservations
  | .CUDA => .cudaRgbObservations

/-- The executor a call is made on. -/
def BackendCall.target : BackendCall → ExecMode
  | .cudaRun => .CUDA
  | .cpuRun => .CPU
  | .cudaGetExported _ => .CUDA
  | .cpuGetExported _ => .CPU
  | .cudaDepthObservations => .CUDA
  | .cpuDepthObservations => .CPU
  | .cudaRgbObservations => .CUDA
  | .cpuRgbObservations => .CPU

/-- The slot a call asks for, when it is a buffer-for-slot lookup. -/
def BackendCall.slot? : BackendCall → Option Int
  | .cudaGetExported slot => some slot
  | .cpuGetExported slot => some slot
  | _ => none

/-- The slots a view accessor asks its backend for. -/
def Manager.slotsUsed (b : Build) (env : Env) (m : Manager) (v : View) : List Int :=
  match m.view b env v with
  | .ok (_, calls) => calls.filterMap BackendCall.slot?
  | .error _ => []

/-- The fifteen state views, in the order of the export table. -/
def stateViews : List View :=
  [.reset, .done, .prepCounter, .action, .reward, .agentType, .agentMask, .agentData,
   .boxData, .rampData, .visibleAgentsMask, .visibleBoxesMask, .visibleRampsMask,
   .globalPositions, .lidar]

/-- A shape a reader can use: at least one dimension, none of them empty. -/
def usableShape (dims : List Int) : Prop := dims ≠ [] ∧ ∀ d ∈ dims, 0 < d

instance (dims : List Int) : Decidable (usableShape dims) := by
  unfold usableShape; infer_instance

/-- An image accessor signals failure when the call does not return a view, or
returns the explicitly empty view: a null handle and no usable shape. -/
def signalsFailure : Except Fault (Tensor × List BackendCall) → Prop
  | .error _ => True
  | .ok (t, _) => t.devPtr = nullptr ∧ ¬ usableShape t.dims

/-- The variant matches the stored mode, and the accelerator variant exists
only in a build with accelerator support. -/
def Manager.Coherent (b : Build) (m : Manager) : Prop :=
  m.variant = m.impl_.cfg.execMode ∧ (m.impl_.cfg.execMode = .CUDA → b.cudaSupport = true)

/-- Modelled from the spec: the executors are library code; section 4.3 asks of
both that the depth and colour buffer lookups fail with a null handle when
rendering was not enabled, that is, when no camera was configured. -/
def Env.ImageBuffersNeedCamera (env : Env) : Prop :=
  (∀ e : TaskGraphT, e.cfg.cameraMode = .None →
    env.cpuDepthObservations e = nullptr ∧ env.cpuRgbObservations e = nullptr) ∧
  (∀ e : MWCudaExecutor, e.stateCfg.cameraMode = .None →
    env.cudaDepthObservations e = nullptr ∧ env.cudaRgbObservations e = nullptr)

/-! ## The catalog files and their outcomes -/

/-- The render meshes `init` imports, in source order: file and catalog name. -/
def renderCatalog : List (String × String) :=
  [("sphere.obj", "sphere"), ("plane.obj", "plane"), ("cube_render.obj", "cube"),
   ("wall_render.obj", "wall"), ("cylinder_render.obj", "cylinder"),
   ("ramp_render.obj", "ramp"), ("elongated_render.obj", "elongated")]

/-- The collision hulls `loadPhysicsObjects` loads, in source order: file and
catalog name. -/
def hullCatalog : List (String × String) :=
  [("cube_collision.obj", "cube"), ("wall_collision.obj", "wall"),
   ("cylinder_collision.obj", "cylinder"), ("ramp_collision.obj", "ramp"),
   ("elongated_collision.obj", "elongated")]

/-- The importer returns nothing for this render mesh. -/
def renderMissing (b : Build) (env : Env) (file : String) : Bool :=
  (env.importObject (dataPath b file)).isNone

/-- The diagnostic of the abort the hull loader raises on this file, if it does. -/
def hullAbort (b : Build) (env : Env) (file : String) : Option String :=
  match env.loadHullFromDisk (dataPath b file) with
  | .ok _ => none
  | .error diagnostic => some diagnostic

/-- Every catalog file loads. -/
def assetsLoad (b : Build) (env : Env) : Prop :=
  (∀ e ∈ renderCatalog, renderMissing b env e.1 = false) ∧
  (∀ e ∈ hullCatalog, hullAbort b env e.1 = none)

instance (b : Build) (env : Env) : Decidable (assetsLoad b env) := by
  unfold assetsLoad; infer_instance

/-- The catalog name of the first render mesh, in source order, that the
importer returns nothing for. -/
def firstMissingRender (b : Build) (env : Env) : Option String :=
  (renderCatalog.find? (fun e => renderMissing b env e.1)).map (fun e => e.2)

/-- The diagnostic of the first hull load, in source order, that aborts. -/
def firstHullAbort (b : Build) (env : Env) : Option String :=
  hullCatalog.findSome? (fun e => hullAbort b env e.1)

/-- The diagnostic text contains the given name. -/
def mentions (text name : String) : Prop := name.data <:+: text.data

instance (text name : String) : Decidable (mentions text name) := by
  unfold mentions; infer_instance

/-- The environment `okEnv`, except that the accelerator runtime reports error
2 on `cudaMemset`. -/
def memsetFailEnv : Env := { okEnv with cudaMemset := fun _ _ _ => 2 }

/-- The environment `okEnv`, except that the hull loader aborts on the cube. -/
def missingCubeHullEnv : Env :=
  { okEnv with
    loadHullFromDisk := fun p =>
      if p.file = "cube_collision.obj" then .error "cannot open cube_collision.obj"
      else okEnv.loadHullFromDisk p }

/-- The environment `missingCubeHullEnv`, except that the accelerator runtime
reports error 2 on `cudaMemset`. -/
def memsetFailCubeHullEnv : Env := { missingCubeHullEnv with cudaMemset := fun _ _ _ => 2 }

/-- The storage the physics loader of a mode is created with. -/
def storageOf : ExecMode → StorageType
  | .CPU => .CPU
  | .CUDA => .CUDA

/-- The mode is served: host mode, or accelerator mode with support compiled in
and the zero-fill of the episode counter reported successful. -/
def modeServed (b : Build) (env : Env) (cfg : Config) : Prop :=
  cfg.execMode = .CPU ∨
    (b.cudaSupport = true ∧
      env.cudaMemset (env.allocGPU b.layout.sizeofEpisodeManager) 0
        b.layout.sizeofEpisodeManager = 0)

/-- The environment `okEnv`, except that the importer returns nothing for the
wall mesh. -/
def missingWallMeshEnv : Env :=
  { okEnv with
    importObject := fun p => if p.file = "wall_render.obj" then none else okEnv.importObject p }

/-- The environment `okEnv`, except that the hull loader returns larger boxes
and other meshes. -/
def otherHullEnv : Env :=
  { okEnv with
    loadHullFromDisk := fun p => .ok ⟨⟨⟨-4, -4, -4⟩, ⟨4, 4, 4⟩⟩, ⟨100 + p.file.length⟩⟩ }

/-! ## Construction, inverted -/

theorem importRendererObjs_ok {b : Build} {env : Env} {l : List ImportedObject}
    (h : importRendererObjs b env = .ok l) :
    ∃ o0 o1 o2 o3 o4 o5 o6,
      env.importObject (dataPath b "sphere.obj") = some o0 ∧
      env.importObject (dataPath b "plane.obj") = some o1 ∧
      env.importObject (dataPath b "cube_render.obj") = some o2 ∧
      env.importObject (dataPath b "wall_render.obj") = some o3 ∧
      env.importObject (dataPath b "cylinder_render.obj") = some o4 ∧
      env.importObject (dataPath b "ramp_render.obj") = some o5 ∧
      env.importObject (dataPath b "elongated_render.obj") = some o6 ∧
      l = [o0, o1, o2, o3, o4, o5, o6] := by
  simp only [importRendererObjs, importOrFatal, bind, Except.bind, pure, Except.pure] at h
  rcases h0 : env.importObject (dataPath b "sphere.obj") with _ | o0
  · simp [h0] at h
  rcases h1 : env.importObject (dataPath b "plane.obj") with _ | o1
  · simp [h0, h1] at h
  rcases h2 : env.importObject (dataPath b "cube_render.obj") with _ | o2
  · simp [h0, h1, h2] at h
  rcases h3 : env.importObject (dataPath b "wall_render.obj") with _ | o3
  · simp [h0, h1, h2, h3] at h
  rcases h4 : env.importObject (dataPath b "cylinder_render.obj") with _ | o4
  · simp [h0, h1, h2, h3, h4] at h
  rcases h5 : env.importObject (dataPath b "ramp_render.obj") with _ | o5
  · simp [h0, h1, h2, h3, h4, h5] at h
  rcases h6 : env.importObject (dataPath b "elongated_render.obj") with _ | o6
  · simp [h0, h1, h2, h3, h4, h5, h6] at h
  simp [h0, h1, h2, h3, h4, h5, h6] at h
  exact ⟨o0, o1, o2, o3, o4, o5, o6, rfl, rfl, rfl, rfl, rfl, rfl, rfl, h.symm⟩

theorem loadPhysicsObjects_ok {b : Build} {env : Env} {loader out : PhysicsLoader}
    (h : loadPhysicsObjects b env loader = .ok out) :
    ∃ cube wall cylinder ramp elongated,
      env.loadHullFromDisk (dataPath b "cube_collision.obj") = .ok cube ∧
      env.loadHullFromDisk (dataPath b "wall_collision.obj") = .ok wall ∧
      env.loadHullFromDisk (dataPath b "cylinder_collision.obj") = .ok cylinder ∧
      env.loadHullFromDisk (dataPath b "ramp_collision.obj") = .ok ramp ∧
      env.loadHullFromDisk (dataPath b "elongated_collision.obj") = .ok elongated ∧
      out = loader.loadObjects
        [{ invInertiaTensor := ⟨2.5, 2.5, 2.5⟩, invMass := 1, muS := 0.5, muD := 0.5 },
         { invInertiaTensor := ⟨0, 0, 0⟩, invMass := 0, muS := 0.5, muD := 0.5 },
         { invInertiaTensor := ⟨1.5, 1.5, 1.5⟩, invMass := 1, muS := 0.5, muD := 0.5 },
         { invInertiaTensor := ⟨0, 0, 0⟩, invMass := 0, muS := 0.5, muD := 0.5 },
         { invInertiaTensor := ⟨0, 0, 1⟩, invMass := 1, muS := 0.5, muD := 0.5 },
         { invInertiaTensor := ⟨1.5, 1.5, 1.5⟩, invMass := 1, muS := 0.5, muD := 0.5 },
         { invInertiaTensor := Vector3.rdiv b.fdiv 12
             ⟨2 * 2 + 1.5 * 1.5, 2 * 2 + 8 * 8, 8 * 8 + 1.5 * 1.5⟩,
           invMass := 1, muS := 0.5, muD := 0.5 }]
        [{ pMin := ⟨-1, -1, -1⟩, pMax := ⟨1, 1, 1⟩ },
         { pMin := ⟨-FLT_MAX, -FLT_MAX, -FLT_MAX⟩, pMax := ⟨FLT_MAX, FLT_MAX, 0⟩ },
         cube.aabb, wall.aabb, cylinder.aabb, ramp.aabb, elongated.aabb]
        [.Sphere 1, .Plane, .Hull cube.collisionMesh, .Hull wall.collisionMesh,
         .Hull cylinder.collisionMesh, .Hull ramp.collisionMesh,
         .Hull elongated.collisionMesh]
        7 := by
  simp only [loadPhysicsObjects, loadHull, bind, Except.bind, pure, Except.pure] at h
  rcases h2 : env.loadHullFromDisk (dataPath b "cube_collision.obj") with d | cube
  · simp [h2] at h
  rcases h3 : env.loadHullFromDisk (dataPath b "wall_collision.obj") with d | wall
  · simp [h2, h3] at h
  rcases h4 : env.loadHullFromDisk (dataPath b "cylinder_collision.obj") with d | cylinder
  · simp [h2, h3, h4] at h
  rcases h5 : env.loadHullFromDisk (dataPath b "ramp_collision.obj") with d | ramp
  · simp [h2, h3, h4, h5] at h
  rcases h6 : env.loadHullFromDisk (dataPath b "elongated_collision.obj") with d | elongated
  · simp [h2, h3, h4, h5, h6] at h
  simp only [h2, h3, h4, h5, h6, Except.ok.injEq] at h
  exact ⟨cube, wall, cylinder, ramp, elongated, rfl, rfl, rfl, rfl, rfl, h.symm⟩

theorem Impl.init_ok {b : Build} {env : Env} {cfg : Config} {impl : Impl}
    (h : Impl.init b env cfg = .ok impl) :
    ∃ imported loader,
      importRendererObjs b env = .ok imported ∧
      ((cfg.execMode = .CPU ∧
        loadPhysicsObjects b env (PhysicsLoader.new env .CPU 10) = .ok loader ∧
        ∃ cpuExec, impl = .CPUImpl ⟨cfg, loader, env.newEpisodeManager⟩ cpuExec ∧
          cpuExec.cfg.numExportedBuffers = 16 ∧
          cpuExec.cfg.numWorlds = cfg.numWorlds ∧
          cpuExec.cfg.cameraMode = cameraModeOf cfg ∧
          cpuExec.worldInits = buildWorldInits cfg.numWorlds
            ⟨env.newEpisodeManager, loader.objMgrAddr, cfg.minEntitiesPerWorld,
             cfg.maxEntitiesPerWorld⟩ ∧
          cpuExec.renderObjects =
            (if cfg.enableRender then
              some (imported.map (fun imported_obj => ⟨imported_obj.meshes⟩))
             else none) ∧
          cpuExec.numRuns = 0) ∨
       (cfg.execMode = .CUDA ∧ b.cudaSupport = true ∧
        env.cudaMemset (env.allocGPU b.layout.sizeofEpisodeManager) 0
          b.layout.sizeofEpisodeManager = 0 ∧
        loadPhysicsObjects b env (PhysicsLoader.new env .CUDA 10) = .ok loader ∧
        ∃ mwGPU, impl = .CUDAImpl ⟨cfg, loader, env.allocGPU b.layout.sizeofEpisodeManager⟩
            mwGPU ∧
          mwGPU.stateCfg.numExportedBuffers = 16 ∧
          mwGPU.stateCfg.numWorlds = cfg.numWorlds ∧
          mwGPU.stateCfg.cameraMode = cameraModeOf cfg ∧
          mwGPU.stateCfg.worldInitPtr = buildWorldInits cfg.numWorlds
            ⟨env.allocGPU b.layout.sizeofEpisodeManager, loader.objMgrAddr,
             cfg.minEntitiesPerWorld, cfg.maxEntitiesPerWorld⟩ ∧
          mwGPU.renderObjects =
            (if cfg.enableRender then
              some (imported.map (fun imported_obj => ⟨imported_obj.meshes⟩))
             else none) ∧
          mwGPU.numRuns = 0)) := by
  simp only [Impl.init, bind, Except.bind, pure, Except.pure] at h
  rcases hi : importRendererObjs b env with a | imported
  · simp [hi] at h
  simp only [hi] at h
  refine ⟨imported, ?_⟩
  rcases hm : cfg.execMode with _ | _
  · -- CPU
    simp only [hm] at h
    rcases hl : loadPhysicsObjects b env (PhysicsLoader.new env .CPU 10) with a | loader
    · simp [hl] at h
    simp only [hl, Except.ok.injEq] at h
    refine ⟨loader, rfl, Or.inl ⟨rfl, rfl, ?_⟩⟩
    subst h
    refine ⟨_, rfl, ?_⟩
    cases cfg.enableRender <;> simp [TaskGraphT.loadObjects]
  · -- CUDA
    simp only [hm] at h
    cases hs : b.cudaSupport
    · simp [hs, throw, throwThe, MonadExceptOf.throw] at h
    simp only [hs, if_true] at h
    by_cases hc : env.cudaMemset (env.allocGPU b.layout.sizeofEpisodeManager) 0
        b.layout.sizeofEpisodeManager = 0
    · simp only [hc, ne_eq, not_true_eq_false, if_false] at h
      rcases hl : loadPhysicsObjects b env (PhysicsLoader.new env .CUDA 10) with a | loader
      · simp [hl] at h
      simp only [hl, Except.ok.injEq] at h
      refine ⟨loader, rfl, Or.inr ⟨rfl, rfl, hc, rfl, ?_⟩⟩
      subst h
      refine ⟨_, rfl, ?_⟩
      cases cfg.enableRender <;> simp [MWCudaExecutor.loadObjects]
    · simp [hc, throw, throwThe, MonadExceptOf.throw] at h

theorem Manager.new_ok {b : Build} {env : Env} {cfg : Config} {m : Manager}
    (h : Manager.new b env cfg = .ok m) : Impl.init b env cfg = .ok m.impl_ := by
  unfold Manager.new at h
  split at h
  · rename_i impl hi
    simp only [Except.ok.injEq] at h
    subst h
    exact hi
  · simp at h

/-- A constructed Manager is one of the two variants, matching the mode of the
configuration it stores. -/
theorem Manager.new_variant {b : Build} {env : Env} {cfg : Config} {m : Manager}
    (h : Manager.new b env cfg = .ok m) :
    (cfg.execMode = .CPU ∧ ∃ loader ep cpuExec, m = ⟨.CPUImpl ⟨cfg, loader, ep⟩ cpuExec⟩) ∨
    (cfg.execMode = .CUDA ∧ b.cudaSupport = true ∧
      ∃ loader ep mwGPU, m = ⟨.CUDAImpl ⟨cfg, loader, ep⟩ mwGPU⟩) := by
  obtain ⟨imported, loader, -, hc | hc⟩ := Impl.init_ok (Manager.new_ok h)
  · obtain ⟨hm, -, cpuExec, himpl, -⟩ := hc
    refine Or.inl ⟨hm, loader, env.newEpisodeManager, cpuExec, ?_⟩
    cases m; simp_all
  · obtain ⟨hm, hs, -, -, mwGPU, himpl, -⟩ := hc
    refine Or.inr ⟨hm, hs, loader, env.allocGPU b.layout.sizeofEpisodeManager, mwGPU, ?_⟩
    cases m; simp_all

theorem Manager.new_coherent {b : Build} {env : Env} {cfg : Config} {m : Manager}
    (h : Manager.new b env cfg = .ok m) : m.Coherent b ∧ m.impl_.cfg = cfg := by
  rcases Manager.new_variant h with ⟨hm, loader, ep, e, rfl⟩ | ⟨hm, hs, loader, ep, e, rfl⟩
  · simp [Manager.Coherent, Manager.variant, Impl.cfg, Impl.base, hm]
  · simp [Manager.Coherent, Manager.variant, Impl.cfg, Impl.base, hm, hs]

theorem Manager.step_coherent {b : Build} {m : Manager} (hm : m.Coherent b) :
    ∃ m1, m.step b = .ok (m1, [runCallOf m.impl_.cfg.execMode]) ∧ m1.Coherent b ∧
      m1.impl_.base = m.impl_.base ∧ m1.numRuns = m.numRuns + 1 ∧
      m1.cameraMode = m.cameraMode ∧ m1.worldInits = m.worldInits ∧
      m1.numExportedBuffers = m.numExportedBuffers := by
  obtain ⟨hv, hs⟩ := hm
  rcases m with ⟨base, e⟩ | ⟨base, e⟩
  · simp only [Manager.variant, Impl.cfg, Impl.base] at hv hs
    refine ⟨⟨.CPUImpl base e.run⟩, ?_, ?_⟩
    · simp [Manager.step, Impl.cfg, Impl.base, ← hv, runCallOf]
    · simp [Impl.base, ← hv, Manager.Coherent, Manager.variant, Manager.numRuns,
        Manager.cameraMode, Manager.worldInits, Manager.numExportedBuffers, TaskGraphT.run,
        Impl.cfg]
  · simp only [Manager.variant, Impl.cfg, Impl.base] at hv hs
    have hsup : b.cudaSupport = true := hs hv.symm
    refine ⟨⟨.CUDAImpl base e.run⟩, ?_, ?_⟩
    · simp [Manager.step, Impl.cfg, Impl.base, ← hv, runCallOf, hsup]
    · simp [Impl.base, ← hv, Manager.Coherent, Manager.variant, Manager.numRuns,
        Manager.cameraMode, Manager.worldInits, Manager.numExportedBuffers,
        MWCudaExecutor.run, Impl.cfg, hsup]

theorem Manager.stepN_coherent {b : Build} (n : Nat) {m : Manager} (hm : m.Coherent b) :
    ∃ mn, m.stepN b n = .ok (mn, List.replicate n (runCallOf m.impl_.cfg.execMode)) ∧
      mn.Coherent b ∧ mn.impl_.base = m.impl_.base ∧ mn.numRuns = m.numRuns + n ∧
      mn.cameraMode = m.cameraMode ∧ mn.worldInits = m.worldInits ∧
      mn.numExportedBuffers = m.numExportedBuffers := by
  induction n generalizing m with
  | zero => exact ⟨m, rfl, hm, rfl, rfl, rfl, rfl, rfl⟩
  | succ n ih =>
    obtain ⟨m1, hstep, hc1, hb1, hr1, hcam1, hw1, hx1⟩ := Manager.step_coherent hm
    obtain ⟨mn, hrest, hcn, hbn, hrn, hcamn, hwn, hxn⟩ := ih hc1
    have hmode : m1.impl_.cfg.execMode = m.impl_.cfg.execMode := by
      simp [Impl.cfg, hb1]
    refine ⟨mn, ?_, hcn, hbn.trans hb1, ?_, hcamn.trans hcam1, hwn.trans hw1,
      hxn.trans hx1⟩
    · simp [Manager.stepN, hstep, hrest, hmode, List.replicate_succ]
    · omega

/-- What construction fixes in the backend it returns. -/
theorem Manager.new_facts {b : Build} {env : Env} {cfg : Config} {m : Manager}
    (h : Manager.new b env cfg = .ok m) :
    m.numRuns = 0 ∧ m.cameraMode = cameraModeOf cfg ∧ m.numExportedBuffers = 16 ∧
    m.worldInits = buildWorldInits cfg.numWorlds
      ⟨m.impl_.base.episodeMgr, m.impl_.base.physicsLoader.objMgrAddr,
       cfg.minEntitiesPerWorld, cfg.maxEntitiesPerWorld⟩ := by
  obtain ⟨imported, loader, -, hc | hc⟩ := Impl.init_ok (Manager.new_ok h)
  · obtain ⟨-, -, cpuExec, himpl, hx, -, hcam, hw, -, hr⟩ := hc
    simp [Manager.numRuns, Manager.cameraMode, Manager.numExportedBuffers,
      Manager.worldInits, himpl, hx, hcam, hw, hr, Impl.base]
  · obtain ⟨-, -, -, -, mwGPU, himpl, hx, -, hcam, hw, -, hr⟩ := hc
    simp [Manager.numRuns, Manager.cameraMode, Manager.numExportedBuffers,
      Manager.worldInits, himpl, hx, hcam, hw, hr, Impl.base]

/-- On a coherent Manager an export is the lookup of its backend, tagged with
the device only in accelerator mode. -/
theorem Manager.exportStateTensor_coherent {b : Build} (env : Env) {m : Manager}
    (hm : m.Coherent b) (slot : Int) (type : ElementType) (dims : List Int) :
    m.exportStateTensor b env slot type dims =
      .ok (⟨m.getExported env slot, type, dims,
            if m.impl_.cfg.execMode = .CUDA then some m.impl_.cfg.gpuID else none⟩,
           [getExportedCallOf m.impl_.cfg.execMode slot]) := by
  obtain ⟨hv, hs⟩ := hm
  rcases m with ⟨base, e⟩ | ⟨base, e⟩
  · simp only [Manager.variant, Impl.cfg, Impl.base] at hv hs
    simp [Manager.exportStateTensor, Impl.cfg, Impl.base, ← hv, Manager.getExported,
      getExportedCallOf]
  · simp only [Manager.variant, Impl.cfg, Impl.base] at hv hs
    have hsup : b.cudaSupport = true := hs hv.symm
    simp [Manager.exportStateTensor, Impl.cfg, Impl.base, ← hv, Manager.getExported,
      getExportedCallOf, hsup]

/-- On a coherent Manager the depth view is the depth lookup of its backend
with the full image shape. -/
theorem Manager.depthTensor_coherent {b : Build} (env : Env) {m : Manager}
    (hm : m.Coherent b) :
    m.depthTensor b env =
      .ok (⟨m.depthObservations env, .Float32,
            [m.impl_.cfg.numWorlds, b.consts.maxAgents, m.impl_.cfg.renderHeight,
             m.impl_.cfg.renderWidth, 1], some m.impl_.cfg.gpuID⟩,
           [depthCallOf m.impl_.cfg.execMode]) := by
  obtain ⟨hv, hs⟩ := hm
  rcases m with ⟨base, e⟩ | ⟨base, e⟩
  · simp only [Manager.variant, Impl.cfg, Impl.base] at hv hs
    simp [Manager.depthTensor, Impl.cfg, Impl.base, ← hv, Manager.depthObservations,
      depthCallOf]
  · simp only [Manager.variant, Impl.cfg, Impl.base] at hv hs
    have hsup : b.cudaSupport = true := hs hv.symm
    simp [Manager.depthTensor, Impl.cfg, Impl.base, ← hv, Manager.depthObservations,
      depthCallOf, hsup]

/-- On a coherent Manager the rgb view is the colour lookup of its backend
with the full image shape. -/
theorem Manager.rgbTensor_coherent {b : Build} (env : Env) {m : Manager}
    (hm : m.Coherent b) :
    m.rgbTensor b env =
      .ok (⟨m.rgbObservations env, .UInt8,
            [m.impl_.cfg.numWorlds, b.consts.maxAgents, m.impl_.cfg.renderHeight,
             m.impl_.cfg.renderWidth, 4], some m.impl_.cfg.gpuID⟩,
           [rgbCallOf m.impl_.cfg.execMode]) := by
  obtain ⟨hv, hs⟩ := hm
  rcases m with ⟨base, e⟩ | ⟨base, e⟩
  · simp only [Manager.variant, Impl.cfg, Impl.base] at hv hs
    simp [Manager.rgbTensor, Impl.cfg, Impl.base, ← hv, Manager.rgbObservations,
      rgbCallOf]
  · simp only [Manager.variant, Impl.cfg, Impl.base] at hv hs
    have hsup : b.cudaSupport = true := hs hv.symm
    simp [Manager.rgbTensor, Impl.cfg, Impl.base, ← hv, Manager.rgbObservations,
      rgbCallOf, hsup]

/-- With no camera configured, a backend that keeps the contract of section 4.3
answers both image lookups with the null handle. -/
theorem Manager.image_lookups_null {env : Env} (hbk : env.ImageBuffersNeedCamera)
    {m : Manager} (hcam : m.cameraMode = .None) :
    m.depthObservations env = nullptr ∧ m.rgbObservations env = nullptr := by
  rcases m with ⟨base, e⟩ | ⟨base, e⟩
  · exact hbk.1 e hcam
  · exact hbk.2 e hcam

/-- The environment `okEnv` keeps the image-buffer contract. -/
theorem okEnv_imageBuffers : okEnv.ImageBuffersNeedCamera := by
  constructor <;> intro e h <;> simp [okEnv, h]

theorem buildWorldInits_loop (w : WorldInit) (n k : Nat) (hk : k ≤ n) :
    (List.range k).foldl (fun world_inits i => world_inits.set i (some w))
      (List.replicate n none) =
    List.replicate k (some w) ++ List.replicate (n - k) none := by
  induction k with
  | zero => simp
  | succ k ih =>
    rw [List.range_succ, List.foldl_append, ih (by omega)]
    simp only [List.foldl_cons, List.foldl_nil]
    have h1 : n - k = (n - (k + 1)) + 1 := by omega
    rw [h1, List.replicate_succ, List.set_append_right _ _ (by simp)]
    simp [List.replicate_succ', List.append_assoc]

theorem buildWorldInits_eq (n : Nat) (w : WorldInit) :
    buildWorldInits n w = List.replicate n (some w) := by
  unfold buildWorldInits
  rw [buildWorldInits_loop w n n (le_refl n)]
  simp

theorem importRendererObjs_of_none {b : Build} {env : Env}
    (h : firstMissingRender b env = none) :
    ∃ l, importRendererObjs b env = .ok l := by
  simp only [firstMissingRender, renderCatalog, renderMissing, List.find?_cons] at h
  simp only [importRendererObjs, importOrFatal, bind, Except.bind, pure, Except.pure]
  rcases h0 : env.importObject (dataPath b "sphere.obj") with _ | o0
  · simp [h0] at h
  rcases h1 : env.importObject (dataPath b "plane.obj") with _ | o1
  · simp [h0, h1] at h
  rcases h2 : env.importObject (dataPath b "cube_render.obj") with _ | o2
  · simp [h0, h1, h2] at h
  rcases h3 : env.importObject (dataPath b "wall_render.obj") with _ | o3
  · simp [h0, h1, h2, h3] at h
  rcases h4 : env.importObject (dataPath b "cylinder_render.obj") with _ | o4
  · simp [h0, h1, h2, h3, h4] at h
  rcases h5 : env.importObject (dataPath b "ramp_render.obj") with _ | o5
  · simp [h0, h1, h2, h3, h4, h5] at h
  rcases h6 : env.importObject (dataPath b "elongated_render.obj") with _ | o6
  · simp [h0, h1, h2, h3, h4, h5, h6] at h
  exact ⟨_, rfl⟩

theorem importRendererObjs_of_some {b : Build} {env : Env} {label : String}
    (h : firstMissingRender b env = some label) :
    importRendererObjs b env = .error (.fatal ("Failed to load " ++ label)) := by
  simp only [firstMissingRender, renderCatalog, renderMissing, List.find?_cons] at h
  simp only [importRendererObjs, importOrFatal, bind, Except.bind, pure, Except.pure]
  rcases h0 : env.importObject (dataPath b "sphere.obj") with _ | o0
  · simp [h0] at h; subst h; rfl
  rcases h1 : env.importObject (dataPath b "plane.obj") with _ | o1
  · simp [h0, h1] at h; subst h; rfl
  rcases h2 : env.importObject (dataPath b "cube_render.obj") with _ | o2
  · simp [h0, h1, h2] at h; subst h; rfl
  rcases h3 : env.importObject (dataPath b "wall_render.obj") with _ | o3
  · simp [h0, h1, h2, h3] at h; subst h; rfl
  rcases h4 : env.importObject (dataPath b "cylinder_render.obj") with _ | o4
  · simp [h0, h1, h2, h3, h4] at h; subst h; rfl
  rcases h5 : env.importObject (dataPath b "ramp_render.obj") with _ | o5
  · simp [h0, h1, h2, h3, h4, h5] at h; subst h; rfl
  rcases h6 : env.importObject (dataPath b "elongated_render.obj") with _ | o6
  · simp [h0, h1, h2, h3, h4, h5, h6] at h; subst h; rfl
  simp [h0, h1, h2, h3, h4, h5, h6] at h

theorem loadPhysicsObjects_of_none {b : Build} {env : Env} (loader : PhysicsLoader)
    (h : firstHullAbort b env = none) :
    ∃ out, loadPhysicsObjects b env loader = .ok out := by
  simp only [firstHullAbort, hullCatalog, hullAbort, List.findSome?_cons] at h
  simp only [loadPhysicsObjects, loadHull, bind, Except.bind, pure, Except.pure]
  rcases h2 : env.loadHullFromDisk (dataPath b "cube_collision.obj") with d | cube
  · simp [h2] at h
  rcases h3 : env.loadHullFromDisk (dataPath b "wall_collision.obj") with d | wall
  · simp [h2, h3] at h
  rcases h4 : env.loadHullFromDisk (dataPath b "cylinder_collision.obj") with d | cylinder
  · simp [h2, h3, h4] at h
  rcases h5 : env.loadHullFromDisk (dataPath b "ramp_collision.obj") with d | ramp
  · simp [h2, h3, h4, h5] at h
  rcases h6 : env.loadHullFromDisk (dataPath b "elongated_collision.obj") with d | elongated
  · simp [h2, h3, h4, h5, h6] at h
  exact ⟨_, rfl⟩

theorem loadPhysicsObjects_of_some {b : Build} {env : Env} (loader : PhysicsLoader)
    {diagnostic : String} (h : firstHullAbort b env = some diagnostic) :
    loadPhysicsObjects b env loader = .error (.hullLoader diagnostic) := by
  simp only [firstHullAbort, hullCatalog, hullAbort, List.findSome?_cons] at h
  simp only [loadPhysicsObjects, loadHull, bind, Except.bind, pure, Except.pure]
  rcases h2 : env.loadHullFromDisk (dataPath b "cube_collision.obj") with d | cube
  · simp [h2] at h; subst h; rfl
  rcases h3 : env.loadHullFromDisk (dataPath b "wall_collision.obj") with d | wall
  · simp [h2, h3] at h; subst h; rfl
  rcases h4 : env.loadHullFromDisk (dataPath b "cylinder_collision.obj") with d | cylinder
  · simp [h2, h3, h4] at h; subst h; rfl
  rcases h5 : env.loadHullFromDisk (dataPath b "ramp_collision.obj") with d | ramp
  · simp [h2, h3, h4, h5] at h; subst h; rfl
  rcases h6 : env.loadHullFromDisk (dataPath b "elongated_collision.obj") with d | elongated
  · simp [h2, h3, h4, h5, h6] at h; subst h; rfl
  simp [h2, h3, h4, h5, h6] at h

theorem assetsLoad_iff {b : Build} {env : Env} :
    assetsLoad b env ↔ firstMissingRender b env = none ∧ firstHullAbort b env = none := by
  simp [assetsLoad, firstMissingRender, firstHullAbort, renderCatalog, hullCatalog]

theorem Manager.new_error_of_import {b : Build} {env : Env} (cfg : Config) {a : Abort}
    (h : importRendererObjs b env = .error a) : Manager.new b env cfg = .error a := by
  simp [Manager.new, Impl.init, bind, Except.bind, h]

theorem Manager.new_cuda_unsupported {b : Build} {env : Env} {cfg : Config}
    {l : List ImportedObject} (h : importRendererObjs b env = .ok l)
    (hm : cfg.execMode = .CUDA) (hs : b.cudaSupport = false) :
    Manager.new b env cfg =
      .error (.fatal "Madrona was not compiled with CUDA support") := by
  simp [Manager.new, Impl.init, bind, Except.bind, h, hm, hs, throw, throwThe,
    MonadExceptOf.throw]

theorem Manager.new_cuda_memset {b : Build} {env : Env} {cfg : Config}
    {l : List ImportedObject} (h : importRendererObjs b env = .ok l)
    (hm : cfg.execMode = .CUDA) (hs : b.cudaSupport = true)
    (hc : env.cudaMemset (env.allocGPU b.layout.sizeofEpisodeManager) 0
      b.layout.sizeofEpisodeManager ≠ 0) :
    Manager.new b env cfg =
      .error (.cudaError (env.cudaMemset (env.allocGPU b.layout.sizeofEpisodeManager) 0
        b.layout.sizeofEpisodeManager)) := by
  simp [Manager.new, Impl.init, bind, Except.bind, h, hm, hs, hc, throw, throwThe,
    MonadExceptOf.throw]

theorem Manager.new_of_loads {b : Build} {env : Env} {cfg : Config}
    {l : List ImportedObject} (h : importRendererObjs b env = .ok l)
    (hserved : modeServed b env cfg) :
    (∀ a, loadPhysicsObjects b env (PhysicsLoader.new env (storageOf cfg.execMode) 10) =
        .error a → Manager.new b env cfg = .error a) ∧
    (∀ out, loadPhysicsObjects b env (PhysicsLoader.new env (storageOf cfg.execMode) 10) =
        .ok out → ∃ m, Manager.new b env cfg = .ok m) := by
  rcases hm : cfg.execMode with _ | _
  · constructor
    · intro a ha
      simp only [storageOf] at ha
      simp [Manager.new, Impl.init, bind, Except.bind, h, hm, ha]
    · intro out ho
      simp only [storageOf] at ho
      simp [Manager.new, Impl.init, bind, Except.bind, h, hm, ho, pure, Except.pure]
  · rcases hserved with hcpu | ⟨hs, hc⟩
    · rw [hm] at hcpu; cases hcpu
    constructor
    · intro a ha
      simp only [storageOf] at ha
      simp [Manager.new, Impl.init, bind, Except.bind, h, hm, ha, hs, hc, pure, Except.pure]
    · intro out ho
      simp only [storageOf] at ho
      simp [Manager.new, Impl.init, bind, Except.bind, h, hm, ho, hs, hc, pure, Except.pure]

theorem firstMissingRender_of_ok {b : Build} {env : Env} {l : List ImportedObject}
    (h : importRendererObjs b env = .ok l) : firstMissingRender b env = none := by
  cases hf : firstMissingRender b env with
  | none => rfl
  | some label => rw [importRendererObjs_of_some hf] at h; cases h

theorem firstHullAbort_of_ok {b : Build} {env : Env} {loader out : PhysicsLoader}
    (h : loadPhysicsObjects b env loader = .ok out) : firstHullAbort b env = none := by
  cases hf : firstHullAbort b env with
  | none => rfl
  | some d => rw [loadPhysicsObjects_of_some loader hf] at h; cases h

theorem modeServed_iff (b : Build) (env : Env) (cfg : Config) :
    ¬ modeServed b env cfg ↔
      cfg.execMode = .CUDA ∧
        (b.cudaSupport = false ∨
          env.cudaMemset (env.allocGPU b.layout.sizeofEpisodeManager) 0
            b.layout.sizeofEpisodeManager ≠ 0) := by
  unfold modeServed
  cases cfg.execMode <;> cases b.cudaSupport <;> simp

/-- The catalog a constructed Manager holds is the one its loads produced. -/
theorem Manager.new_catalog {b : Build} {env : Env} {cfg : Config} {m : Manager}
    (h : Manager.new b env cfg = .ok m) :
    ∃ imported,
      importRendererObjs b env = .ok imported ∧
      loadPhysicsObjects b env (PhysicsLoader.new env (storageOf cfg.execMode) 10) =
        .ok m.impl_.base.physicsLoader ∧
      m.renderObjects =
        (if cfg.enableRender then
          some (imported.map (fun imported_obj => ⟨imported_obj.meshes⟩))
         else none) := by
  obtain ⟨imported, loader, hi, hc | hc⟩ := Impl.init_ok (Manager.new_ok h)
  · obtain ⟨hm, hl, cpuExec, himpl, -, -, -, -, hro, -⟩ := hc
    refine ⟨imported, hi, ?_, ?_⟩
    · simp [himpl, Impl.base, hm, storageOf, hl]
    · simp [Manager.renderObjects, himpl, hro]
  · obtain ⟨hm, -, -, hl, mwGPU, himpl, -, -, -, -, hro, -⟩ := hc
    refine ⟨imported, hi, ?_, ?_⟩
    · simp [himpl, Impl.base, hm, storageOf, hl]
    · simp [Manager.renderObjects, himpl, hro]

/-! ## The claims -/

/-- C1. On every constructed Manager, in either execution mode, each of the
seventeen named accessors returns a view whose element type and shape are the
row of the export table, computed from `numWorlds`, the fixed maxima and the
configured render size alone; the leading dimension is `numWorlds`. -/
theorem accessor_schema_matches_export_table (b : Build) (env : Env) (cfg : Config)
    (mode : ExecMode) (m : Manager)
    (h : Manager.new b env { cfg with execMode := mode } = .ok m) (v : View) :
    ∃ t calls, m.view b env v = .ok (t, calls) ∧
      t.type = exportTableType v ∧
      t.dims = exportTableShape cfg.numWorlds b.consts.maxAgents b.consts.maxBoxes
        b.consts.maxRamps cfg.renderHeight cfg.renderWidth v ∧
      t.dims.head? = some (cfg.numWorlds : Int) := by
  rcases Manager.new_variant h with ⟨hm, loader, ep, e, rfl⟩ | ⟨hm, hs, loader, ep, e, rfl⟩
  · simp only at hm
    subst hm
    cases v <;>
      simp [Manager.view, Manager.resetTensor, Manager.doneTensor, Manager.prepCounterTensor,
        Manager.actionTensor, Manager.rewardTensor, Manager.agentTypeTensor,
        Manager.agentMaskTensor, Manager.agentDataTensor, Manager.boxDataTensor,
        Manager.rampDataTensor, Manager.visibleAgentsMaskTensor,
        Manager.visibleBoxesMaskTensor, Manager.visibleRampsMaskTensor,
        Manager.globalPositionsTensor, Manager.lidarTensor, Manager.depthTensor,
        Manager.rgbTensor, Manager.exportStateTensor, Impl.cfg, Impl.base,
        exportTableType, exportTableShape]
  · simp only at hm
    subst hm
    cases v <;>
      simp [Manager.view, Manager.resetTensor, Manager.doneTensor, Manager.prepCounterTensor,
        Manager.actionTensor, Manager.rewardTensor, Manager.agentTypeTensor,
        Manager.agentMaskTensor, Manager.agentDataTensor, Manager.boxDataTensor,
        Manager.rampDataTensor, Manager.visibleAgentsMaskTensor,
        Manager.visibleBoxesMaskTensor, Manager.visibleRampsMaskTensor,
        Manager.globalPositionsTensor, Manager.lidarTensor, Manager.depthTensor,
        Manager.rgbTensor, Manager.exportStateTensor, Impl.cfg, Impl.base,
        exportTableType, exportTableShape, hs]

/-- C1 at four worlds: `agentData` on the host and `rgb` on the accelerator. -/
theorem accessor_schema_matches_export_table_witness :
    (∃ m, Manager.new hostBuild okEnv hostConfig = .ok m ∧
      ∃ t calls, m.view hostBuild okEnv .agentData = .ok (t, calls) ∧
        t.type = .Float32 ∧ t.dims = [4, 6, 5, 4] ∧ t.dims.head? = some 4) ∧
    (∃ m, Manager.new cudaBuild okEnv cudaConfig = .ok m ∧
      ∃ t calls, m.view cudaBuild okEnv .rgb = .ok (t, calls) ∧
        t.type = .UInt8 ∧ t.dims = [4, 6, 64, 64, 4] ∧ t.dims.head? = some 4) :=
  ⟨⟨_, rfl, accessor_schema_matches_export_table hostBuild okEnv hostConfig .CPU _ rfl
      .agentData⟩,
   ⟨_, rfl, accessor_schema_matches_export_table cudaBuild okEnv hostConfig .CUDA _ rfl .rgb⟩⟩

/-- C2, amended. With rendering disabled the depth and rgb accessors never
abort and never consult `enableRender`: before and after any number of steps
each call returns a view of the full shape `[W, A, renderHeight, renderWidth, c]`
with its element type and the device tag `cfg.gpuID`, whose handle is whatever
the image lookup of the backend returns. The handle is the only failure signal:
it is null whenever the backend keeps the contract of answering null while no
camera is configured. -/
theorem image_views_when_render_disabled (b : Build) (env : Env) (cfg : Config) (m : Manager)
    (hnew : Manager.new b env cfg = .ok m) (hr : cfg.enableRender = false) (n : Nat) :
    ∃ mn calls, m.stepN b n = .ok (mn, calls) ∧
      mn.depthTensor b env =
        .ok (⟨mn.depthObservations env, .Float32,
              [cfg.numWorlds, b.consts.maxAgents, cfg.renderHeight, cfg.renderWidth, 1],
              some cfg.gpuID⟩, [depthCallOf cfg.execMode]) ∧
      mn.rgbTensor b env =
        .ok (⟨mn.rgbObservations env, .UInt8,
              [cfg.numWorlds, b.consts.maxAgents, cfg.renderHeight, cfg.renderWidth, 4],
              some cfg.gpuID⟩, [rgbCallOf cfg.execMode]) ∧
      (env.ImageBuffersNeedCamera →
        mn.depthObservations env = nullptr ∧ mn.rgbObservations env = nullptr) := by
  obtain ⟨hcoh, hcfg⟩ := Manager.new_coherent hnew
  obtain ⟨-, hcam, -, -⟩ := Manager.new_facts hnew
  obtain ⟨mn, hstep, hcn, hbn, -, hcamn, -, -⟩ := Manager.stepN_coherent n hcoh
  have hcfgn : mn.impl_.cfg = cfg := by simp [Impl.cfg, hbn]; exact hcfg
  refine ⟨mn, _, hstep, ?_, ?_, fun hbk => Manager.image_lookups_null hbk ?_⟩
  · rw [Manager.depthTensor_coherent env hcn, hcfgn]
  · rw [Manager.rgbTensor_coherent env hcn, hcfgn]
  · rw [hcamn, hcam]; simp [cameraModeOf, hr]

/-- C2, amended, at four worlds on the accelerator after three steps. -/
theorem image_views_when_render_disabled_witness :
    ∃ m, Manager.new cudaBuild okEnv cudaConfig = .ok m ∧
    cudaConfig.enableRender = false ∧
    ∃ mn calls, m.stepN cudaBuild 3 = .ok (mn, calls) ∧
      mn.depthTensor cudaBuild okEnv =
        .ok (⟨mn.depthObservations okEnv, .Float32, [4, 6, 64, 64, 1], some 1⟩,
             [.cudaDepthObservations]) ∧
      mn.rgbTensor cudaBuild okEnv =
        .ok (⟨mn.rgbObservations okEnv, .UInt8, [4, 6, 64, 64, 4], some 1⟩,
             [.cudaRgbObservations]) ∧
      (okEnv.ImageBuffersNeedCamera →
        mn.depthObservations okEnv = nullptr ∧ mn.rgbObservations okEnv = nullptr) :=
  ⟨_, rfl, rfl, image_views_when_render_disabled cudaBuild okEnv cudaConfig _ rfl rfl 3⟩

/-- C2 as stated fails: on the host, rendering disabled, with a backend that
answers the image lookups with null, both accessors return (they do not
abort) and the view, though its handle is null, carries the full usable shape,
so it is not the explicitly empty view. -/
theorem image_views_keep_full_shape_when_render_disabled :
    ∃ m, Manager.new hostBuild okEnv hostConfig = .ok m ∧
    hostConfig.enableRender = false ∧ okEnv.ImageBuffersNeedCamera ∧
    m.depthTensor hostBuild okEnv =
      .ok (⟨nullptr, .Float32, [4, 6, 64, 64, 1], some 1⟩, [.cpuDepthObservations]) ∧
    m.rgbTensor hostBuild okEnv =
      .ok (⟨nullptr, .UInt8, [4, 6, 64, 64, 4], some 1⟩, [.cpuRgbObservations]) ∧
    ¬ signalsFailure (m.depthTensor hostBuild okEnv) ∧
    ¬ signalsFailure (m.rgbTensor hostBuild okEnv) := by
  refine ⟨_, rfl, rfl, okEnv_imageBuffers, rfl, rfl, ?_, ?_⟩
  · show ¬ signalsFailure
      (.ok (⟨nullptr, .Float32, [4, 6, 64, 64, 1], some 1⟩, [.cpuDepthObservations]))
    intro h
    exact h.2 (by decide)
  · show ¬ signalsFailure
      (.ok (⟨nullptr, .UInt8, [4, 6, 64, 64, 4], some 1⟩, [.cpuRgbObservations]))
    intro h
    exact h.2 (by decide)

/-- C5. The world-init table handed to the backend has exactly `numWorlds`
entries, every one of them assigned and equal to the record of the one episode
counter of the Manager, the one object manager of its physics loader, and the
configured entity bounds; this holds for both variants. -/
theorem world_init_table_uniform (b : Build) (env : Env) (cfg : Config) (m : Manager)
    (h : Manager.new b env cfg = .ok m) :
    m.worldInits.length = cfg.numWorlds ∧
    m.worldInits = List.replicate cfg.numWorlds
      (some ⟨m.impl_.base.episodeMgr, m.impl_.base.physicsLoader.objMgrAddr,
             cfg.minEntitiesPerWorld, cfg.maxEntitiesPerWorld⟩) ∧
    (∀ i, i < cfg.numWorlds →
      m.worldInits[i]? = some (some ⟨m.impl_.base.episodeMgr,
        m.impl_.base.physicsLoader.objMgrAddr, cfg.minEntitiesPerWorld,
        cfg.maxEntitiesPerWorld⟩)) ∧
    (∀ i j, i < cfg.numWorlds → j < cfg.numWorlds → m.worldInits[i]? = m.worldInits[j]?) := by
  obtain ⟨-, -, -, hw⟩ := Manager.new_facts h
  rw [buildWorldInits_eq] at hw
  have hi : ∀ i, i < cfg.numWorlds →
      m.worldInits[i]? = some (some ⟨m.impl_.base.episodeMgr,
        m.impl_.base.physicsLoader.objMgrAddr, cfg.minEntitiesPerWorld,
        cfg.maxEntitiesPerWorld⟩) := by
    intro i hlt
    rw [hw, List.getElem?_replicate]
    simp [hlt]
  refine ⟨by rw [hw]; simp, hw, hi, fun i j hlt hjlt => ?_⟩
  rw [hi i hlt, hi j hjlt]

/-- C5 at four worlds on the accelerator. -/
theorem world_init_table_uniform_witness :
    ∃ m, Manager.new cudaBuild okEnv cudaConfig = .ok m ∧
    m.worldInits.length = 4 ∧
    m.worldInits = List.replicate 4 (some ⟨4096, 12288, 1, 10⟩) ∧
    (∀ i, i < 4 → m.worldInits[i]? = some (some ⟨4096, 12288, 1, 10⟩)) ∧
    (∀ i j, i < 4 → j < 4 → m.worldInits[i]? = m.worldInits[j]?) :=
  ⟨_, rfl, world_init_table_uniform cudaBuild okEnv cudaConfig _ rfl⟩

/-- C6. On a constructed Manager, for every slot, `exportStateTensor` makes
one buffer-for-slot lookup on the active backend for that slot and returns its
result as the handle; the device tag is `cfg.gpuID` in accelerator mode (which
implies accelerator support compiled in) and the host tag in host mode. -/
theorem export_state_tensor_device_tag (b : Build) (env : Env) (cfg : Config) (m : Manager)
    (h : Manager.new b env cfg = .ok m) (slot : Int) (type : ElementType)
    (dimensions : List Int) :
    ∃ t, m.exportStateTensor b env slot type dimensions =
        .ok (t, [getExportedCallOf cfg.execMode slot]) ∧
      t.devPtr = m.getExported env slot ∧
      m.variant = cfg.execMode ∧
      (cfg.execMode = .CUDA → b.cudaSupport = true ∧ t.gpuID = some cfg.gpuID) ∧
      (cfg.execMode = .CPU → t.gpuID = none) ∧
      t.type = type ∧ t.dims = dimensions := by
  obtain ⟨hcoh, hcfg⟩ := Manager.new_coherent h
  refine ⟨⟨m.getExported env slot, type, dimensions,
    if cfg.execMode = .CUDA then some cfg.gpuID else none⟩, ?_, rfl, ?_, ?_, ?_, rfl, rfl⟩
  · rw [Manager.exportStateTensor_coherent env hcoh, hcfg]
  · rw [hcoh.1, hcfg]
  · intro hm
    exact ⟨hcoh.2 (by rw [hcfg]; exact hm), by simp [hcfg, hm]⟩
  · intro hm
    simp [hcfg, hm]

/-- C6 at slot 7, on the accelerator and on the host. -/
theorem export_state_tensor_device_tag_witness :
    (∃ m, Manager.new cudaBuild okEnv cudaConfig = .ok m ∧
      ∃ t, m.exportStateTensor cudaBuild okEnv 7 .Float32 [4, 6, 5, 4] =
          .ok (t, [.cudaGetExported 7]) ∧
        t.devPtr = m.getExported okEnv 7 ∧ m.variant = .CUDA ∧
        (ExecMode.CUDA = .CUDA → cudaBuild.cudaSupport = true ∧ t.gpuID = some 1) ∧
        (ExecMode.CUDA = .CPU → t.gpuID = none) ∧
        t.type = .Float32 ∧ t.dims = [4, 6, 5, 4]) ∧
    (∃ m, Manager.new hostBuild okEnv hostConfig = .ok m ∧
      ∃ t, m.exportStateTensor hostBuild okEnv 7 .Float32 [4, 6, 5, 4] =
          .ok (t, [.cpuGetExported 7]) ∧
        t.devPtr = m.getExported okEnv 7 ∧ m.variant = .CPU ∧
        (ExecMode.CPU = .CUDA → hostBuild.cudaSupport = true ∧ t.gpuID = some 1) ∧
        (ExecMode.CPU = .CPU → t.gpuID = none) ∧
        t.type = .Float32 ∧ t.dims = [4, 6, 5, 4]) :=
  ⟨⟨_, rfl,
     export_state_tensor_device_tag cudaBuild okEnv cudaConfig _ rfl 7 .Float32 [4, 6, 5, 4]⟩,
   ⟨_, rfl,
     export_state_tensor_device_tag hostBuild okEnv hostConfig _ rfl 7 .Float32 [4, 6, 5, 4]⟩⟩

/-- C8. On a constructed Manager one `step()` makes exactly one call, the
`run` of the backend variant matching the stored mode, and leaves the stored
configuration and the variant unchanged; `n` steps make exactly `n` such calls,
none on the other variant, and the active backend has then run `n` ticks. -/
theorem step_runs_active_backend (b : Build) (env : Env) (cfg : Config) (m : Manager)
    (h : Manager.new b env cfg = .ok m) (n : Nat) :
    (∃ m1, m.step b = .ok (m1, [runCallOf cfg.execMode]) ∧ m1.impl_.cfg = cfg ∧
      m1.variant = cfg.execMode ∧ m1.numRuns = 1) ∧
    (∃ mn calls, m.stepN b n = .ok (mn, calls) ∧
      calls = List.replicate n (runCallOf cfg.execMode) ∧
      calls.count (runCallOf cfg.execMode) = n ∧
      (∀ c ∈ calls, c.target = cfg.execMode) ∧
      mn.impl_.cfg = cfg ∧ mn.variant = cfg.execMode ∧ mn.numRuns = n) := by
  obtain ⟨hcoh, hcfg⟩ := Manager.new_coherent h
  obtain ⟨hr0, -, -, -⟩ := Manager.new_facts h
  constructor
  · obtain ⟨m1, hstep, hc1, hb1, hr1, -, -, -⟩ := Manager.step_coherent hcoh
    have hcfg1 : m1.impl_.cfg = cfg := by simp [Impl.cfg, hb1]; exact hcfg
    refine ⟨m1, by rw [hstep, hcfg], hcfg1, by rw [hc1.1, hcfg1], by rw [hr1, hr0]⟩
  · obtain ⟨mn, hstep, hcn, hbn, hrn, -, -, -⟩ := Manager.stepN_coherent n hcoh
    have hcfgn : mn.impl_.cfg = cfg := by simp [Impl.cfg, hbn]; exact hcfg
    refine ⟨mn, _, by rw [hstep, hcfg], rfl, by simp, ?_, hcfgn, by rw [hcn.1, hcfgn],
      by rw [hrn, hr0]; simp⟩
    intro c hc
    rw [List.eq_of_mem_replicate hc]
    cases cfg.execMode <;> rfl

/-- C8 on the host: one step, and five steps. -/
theorem step_runs_active_backend_witness :
    ∃ m, Manager.new hostBuild okEnv hostConfig = .ok m ∧
    (∃ m1, m.step hostBuild = .ok (m1, [.cpuRun]) ∧ m1.impl_.cfg = hostConfig ∧
      m1.variant = .CPU ∧ m1.numRuns = 1) ∧
    (∃ mn calls, m.stepN hostBuild 5 = .ok (mn, calls) ∧
      calls = List.replicate 5 .cpuRun ∧
      calls.count .cpuRun = 5 ∧
      (∀ c ∈ calls, c.target = .CPU) ∧
      mn.impl_.cfg = hostConfig ∧ mn.variant = .CPU ∧ mn.numRuns = 5) :=
  ⟨_, rfl, step_runs_active_backend hostBuild okEnv hostConfig _ rfl 5⟩

/-- C10. On a constructed Manager the fifteen state accessors, in the order
of the export table, ask the backend for the slots 0 to 14 respectively, one
lookup each: the slots are pairwise distinct, the backend is configured with
16 exported buffers in both variants, and every slot asked for is below it. -/
theorem state_slots_distinct_in_range (b : Build) (env : Env) (cfg : Config) (m : Manager)
    (h : Manager.new b env cfg = .ok m) :
    stateViews.map (m.slotsUsed b env) =
      [[0], [1], [2], [3], [4], [5], [6], [7], [8], [9], [10], [11], [12], [13], [14]] ∧
    (stateViews.map (m.slotsUsed b env)).Nodup ∧
    m.numExportedBuffers = 16 ∧
    (∀ v ∈ stateViews, ∀ slot ∈ m.slotsUsed b env v,
      0 ≤ slot ∧ slot < (m.numExportedBuffers : Int)) ∧
    (∀ (i : Nat) (v : View), stateViews[i]? = some v →
      ∃ t, m.view b env v = .ok (t, [getExportedCallOf cfg.execMode i]) ∧
        t.devPtr = m.getExported env i) := by
  obtain ⟨hcoh, hcfg⟩ := Manager.new_coherent h
  obtain ⟨-, -, hx, -⟩ := Manager.new_facts h
  have hview : ∀ (i : Nat) (v : View), stateViews[i]? = some v →
      ∃ t, m.view b env v = .ok (t, [getExportedCallOf cfg.execMode i]) ∧
        t.devPtr = m.getExported env i := by
    intro i v hv
    have hi : i < 15 := by
      by_contra hge
      have : stateViews[i]? = none := List.getElem?_eq_none (by simp [stateViews]; omega)
      rw [this] at hv
      cases hv
    interval_cases i <;> simp [stateViews] at hv <;> subst hv <;>
      simp [Manager.view, Manager.resetTensor, Manager.doneTensor, Manager.prepCounterTensor,
        Manager.actionTensor, Manager.rewardTensor, Manager.agentTypeTensor,
        Manager.agentMaskTensor, Manager.agentDataTensor, Manager.boxDataTensor,
        Manager.rampDataTensor, Manager.visibleAgentsMaskTensor,
        Manager.visibleBoxesMaskTensor, Manager.visibleRampsMaskTensor,
        Manager.globalPositionsTensor, Manager.lidarTensor,
        Manager.exportStateTensor_coherent env hcoh, hcfg]
  have hslots : stateViews.map (m.slotsUsed b env) =
      [[0], [1], [2], [3], [4], [5], [6], [7], [8], [9], [10], [11], [12], [13], [14]] := by
    simp only [stateViews, List.map, Manager.slotsUsed]
    simp only [Manager.view, Manager.resetTensor, Manager.doneTensor,
      Manager.prepCounterTensor,
      Manager.actionTensor, Manager.rewardTensor, Manager.agentTypeTensor,
      Manager.agentMaskTensor, Manager.agentDataTensor, Manager.boxDataTensor,
      Manager.rampDataTensor, Manager.visibleAgentsMaskTensor,
      Manager.visibleBoxesMaskTensor, Manager.visibleRampsMaskTensor,
      Manager.globalPositionsTensor, Manager.lidarTensor,
      Manager.exportStateTensor_coherent env hcoh]
    cases m.impl_.cfg.execMode <;> simp [getExportedCallOf, BackendCall.slot?]
  refine ⟨hslots, ?_, hx, ?_, hview⟩
  · rw [hslots]; decide
  · intro v hv slot hs
    have hmem : m.slotsUsed b env v ∈ stateViews.map (m.slotsUsed b env) :=
      List.mem_map_of_mem _ hv
    rw [hslots] at hmem
    rw [hx]
    simp only [List.mem_cons, List.mem_singleton, List.not_mem_nil, or_false] at hmem
    rcases hmem with e | e | e | e | e | e | e | e | e | e | e | e | e | e | e <;>
      (rw [e] at hs; simp at hs; subst hs; decide)

/-- C10 on the accelerator. -/
theorem state_slots_distinct_in_range_witness :
    ∃ m, Manager.new cudaBuild okEnv cudaConfig = .ok m ∧
    stateViews.map (m.slotsUsed cudaBuild okEnv) =
      [[0], [1], [2], [3], [4], [5], [6], [7], [8], [9], [10], [11], [12], [13], [14]] ∧
    (stateViews.map (m.slotsUsed cudaBuild okEnv)).Nodup ∧
    m.numExportedBuffers = 16 ∧
    (∀ v ∈ stateViews, ∀ slot ∈ m.slotsUsed cudaBuild okEnv v,
      0 ≤ slot ∧ slot < (m.numExportedBuffers : Int)) ∧
    (∀ (i : Nat) (v : View), stateViews[i]? = some v →
      ∃ t, m.view cudaBuild okEnv v = .ok (t, [.cudaGetExported i]) ∧
        t.devPtr = m.getExported okEnv i) :=
  ⟨_, rfl, state_slots_distinct_in_range cudaBuild okEnv cudaConfig _ rfl⟩

/-- C3, amended. Given that all catalog assets load, construction fails
fatally if and only if accelerator mode is requested and either accelerator
support was not compiled in (the `FATAL` of the `#else` branch) or the
accelerator runtime reports an error for the zero-fill of the episode counter
(the `REQ_CUDA` check); in every other case it returns one backend instance
whose variant matches `cfg.execMode` and whose stored config is `cfg`. -/
theorem construction_fails_iff_mode_not_served (b : Build) (env : Env) (cfg : Config)
    (hload : assetsLoad b env) :
    ((∃ a, Manager.new b env cfg = .error a) ↔
      cfg.execMode = .CUDA ∧
        (b.cudaSupport = false ∨
          env.cudaMemset (env.allocGPU b.layout.sizeofEpisodeManager) 0
            b.layout.sizeofEpisodeManager ≠ 0)) ∧
    (cfg.execMode = .CUDA → b.cudaSupport = false →
      Manager.new b env cfg =
        .error (.fatal "Madrona was not compiled with CUDA support")) ∧
    (cfg.execMode = .CUDA → b.cudaSupport = true →
      env.cudaMemset (env.allocGPU b.layout.sizeofEpisodeManager) 0
        b.layout.sizeofEpisodeManager ≠ 0 →
      Manager.new b env cfg =
        .error (.cudaError (env.cudaMemset (env.allocGPU b.layout.sizeofEpisodeManager) 0
          b.layout.sizeofEpisodeManager))) ∧
    (modeServed b env cfg →
      ∃ m, Manager.new b env cfg = .ok m ∧ m.variant = cfg.execMode ∧ m.impl_.cfg = cfg) := by
  obtain ⟨hr, hh⟩ := assetsLoad_iff.mp hload
  obtain ⟨l, hl⟩ := importRendererObjs_of_none hr
  have hserved : modeServed b env cfg →
      ∃ m, Manager.new b env cfg = .ok m ∧ m.variant = cfg.execMode ∧ m.impl_.cfg = cfg := by
    intro hs
    obtain ⟨out, ho⟩ := loadPhysicsObjects_of_none
      (PhysicsLoader.new env (storageOf cfg.execMode) 10) hh
    obtain ⟨m, hm⟩ := (Manager.new_of_loads hl hs).2 out ho
    obtain ⟨hcoh, hcfg⟩ := Manager.new_coherent hm
    exact ⟨m, hm, by rw [hcoh.1, hcfg], hcfg⟩
  have hunsup : cfg.execMode = .CUDA → b.cudaSupport = false →
      Manager.new b env cfg =
        .error (.fatal "Madrona was not compiled with CUDA support") :=
    fun hm hs => Manager.new_cuda_unsupported hl hm hs
  have hmemset : cfg.execMode = .CUDA → b.cudaSupport = true →
      env.cudaMemset (env.allocGPU b.layout.sizeofEpisodeManager) 0
        b.layout.sizeofEpisodeManager ≠ 0 →
      Manager.new b env cfg =
        .error (.cudaError (env.cudaMemset (env.allocGPU b.layout.sizeofEpisodeManager) 0
          b.layout.sizeofEpisodeManager)) :=
    fun hm hs hc => Manager.new_cuda_memset hl hm hs hc
  refine ⟨⟨?_, ?_⟩, hunsup, hmemset, hserved⟩
  · rintro ⟨a, ha⟩
    rw [← modeServed_iff]
    intro hs
    obtain ⟨m, hm, -⟩ := hserved hs
    rw [hm] at ha
    cases ha
  · rintro ⟨hm, hs | hc⟩
    · exact ⟨_, hunsup hm hs⟩
    · cases hsup : b.cudaSupport
      · exact ⟨_, hunsup hm hsup⟩
      · exact ⟨_, hmemset hm hsup hc⟩

/-- C3, amended: the accelerator build serves accelerator mode, the host build
aborts on it. -/
theorem construction_fails_iff_mode_not_served_witness :
    assetsLoad cudaBuild okEnv ∧ modeServed cudaBuild okEnv cudaConfig ∧
    (∃ m, Manager.new cudaBuild okEnv cudaConfig = .ok m ∧ m.variant = .CUDA ∧
      m.impl_.cfg = cudaConfig) ∧
    assetsLoad hostBuild okEnv ∧
    Manager.new hostBuild okEnv cudaConfig =
      .error (.fatal "Madrona was not compiled with CUDA support") :=
  ⟨by decide, Or.inr ⟨rfl, rfl⟩,
   (construction_fails_iff_mode_not_served cudaBuild okEnv cudaConfig (by decide)).2.2.2
     (Or.inr ⟨rfl, rfl⟩),
   by decide,
   (construction_fails_iff_mode_not_served hostBuild okEnv cudaConfig (by decide)).2.1 rfl rfl⟩

/-- C3 as stated fails: all assets load and accelerator support is compiled
in, yet construction aborts, on the `REQ_CUDA` check. -/
theorem construction_fails_with_cuda_support_compiled :
    assetsLoad cudaBuild memsetFailEnv ∧ cudaConfig.execMode = .CUDA ∧
    cudaBuild.cudaSupport = true ∧
    Manager.new cudaBuild memsetFailEnv cudaConfig = .error (.cudaError 2) ∧
    ¬ ((∃ a, Manager.new cudaBuild memsetFailEnv cudaConfig = .error a) ↔
        (cudaConfig.execMode = .CUDA ∧ cudaBuild.cudaSupport = false)) :=
  ⟨by decide, rfl, rfl, rfl, fun h => by
    have := (h.mp ⟨_, rfl⟩).2
    cases this⟩

/-- C7, amended. If a render mesh fails to import, construction aborts with
`Failed to load` followed by the catalog name of the first such mesh in source
order, a mesh that is indeed missing. The hulls are loaded only after the
meshes imported and the mode was accepted: if all render meshes import and the
mode is not served, construction aborts with the missing-accelerator-support
diagnostic, or with the accelerator runtime's error for the zero-fill,
whatever the hull loader would answer. If all render meshes import, the mode
is served and a hull load aborts, construction aborts with the diagnostic of
the first aborting hull load, the loader's own. Construction succeeds only
when all seven meshes and all five hulls loaded. -/
theorem asset_failure_aborts_construction (b : Build) (env : Env) (cfg : Config) :
    (∀ label, firstMissingRender b env = some label →
      Manager.new b env cfg = .error (.fatal ("Failed to load " ++ label)) ∧
      ∃ file, (file, label) ∈ renderCatalog ∧ renderMissing b env file = true) ∧
    (∀ diagnostic, firstMissingRender b env = none → modeServed b env cfg →
      firstHullAbort b env = some diagnostic →
      Manager.new b env cfg = .error (.hullLoader diagnostic)) ∧
    (firstMissingRender b env = none → cfg.execMode = .CUDA → b.cudaSupport = false →
      Manager.new b env cfg =
        .error (.fatal "Madrona was not compiled with CUDA support")) ∧
    (firstMissingRender b env = none → cfg.execMode = .CUDA → b.cudaSupport = true →
      env.cudaMemset (env.allocGPU b.layout.sizeofEpisodeManager) 0
        b.layout.sizeofEpisodeManager ≠ 0 →
      Manager.new b env cfg =
        .error (.cudaError (env.cudaMemset (env.allocGPU b.layout.sizeofEpisodeManager) 0
          b.layout.sizeofEpisodeManager))) ∧
    (∀ m, Manager.new b env cfg = .ok m → assetsLoad b env) := by
  refine ⟨fun label hf => ⟨?_, ?_⟩, fun d hr hs hh => ?_, fun hr hm hs => ?_,
    fun hr hm hs hc => ?_, fun m hm => ?_⟩
  · exact Manager.new_error_of_import cfg (importRendererObjs_of_some hf)
  · simp only [firstMissingRender, Option.map_eq_some'] at hf
    obtain ⟨e, he, rfl⟩ := hf
    exact ⟨e.1, List.mem_of_find?_eq_some he, by simpa using List.find?_some he⟩
  · obtain ⟨l, hl⟩ := importRendererObjs_of_none hr
    exact (Manager.new_of_loads hl hs).1 _ (loadPhysicsObjects_of_some _ hh)
  · obtain ⟨l, hl⟩ := importRendererObjs_of_none hr
    exact Manager.new_cuda_unsupported hl hm hs
  · obtain ⟨l, hl⟩ := importRendererObjs_of_none hr
    exact Manager.new_cuda_memset hl hm hs hc
  · obtain ⟨imported, loader, hi, hc | hc⟩ := Impl.init_ok (Manager.new_ok hm)
    · exact assetsLoad_iff.mpr ⟨firstMissingRender_of_ok hi, firstHullAbort_of_ok hc.2.1⟩
    · exact assetsLoad_iff.mpr ⟨firstMissingRender_of_ok hi, firstHullAbort_of_ok hc.2.2.2.1⟩

/-- C7, amended: a missing wall mesh; a cube hull the loader aborts on, in a
served mode and in the two ways a mode is not served; and the environment
where everything loads. -/
theorem asset_failure_aborts_construction_witness :
    (firstMissingRender hostBuild missingWallMeshEnv = some "wall" ∧
      Manager.new hostBuild missingWallMeshEnv hostConfig =
        .error (.fatal "Failed to load wall")) ∧
    (firstMissingRender hostBuild missingCubeHullEnv = none ∧
      modeServed hostBuild missingCubeHullEnv hostConfig ∧
      firstHullAbort hostBuild missingCubeHullEnv = some "cannot open cube_collision.obj" ∧
      Manager.new hostBuild missingCubeHullEnv hostConfig =
        .error (.hullLoader "cannot open cube_collision.obj")) ∧
    (firstMissingRender hostBuild missingCubeHullEnv = none ∧
      cudaConfig.execMode = .CUDA ∧ hostBuild.cudaSupport = false ∧
      Manager.new hostBuild missingCubeHullEnv cudaConfig =
        .error (.fatal "Madrona was not compiled with CUDA support")) ∧
    (firstMissingRender cudaBuild memsetFailCubeHullEnv = none ∧
      cudaConfig.execMode = .CUDA ∧ cudaBuild.cudaSupport = true ∧
      firstHullAbort cudaBuild memsetFailCubeHullEnv =
        some "cannot open cube_collision.obj" ∧
      Manager.new cudaBuild memsetFailCubeHullEnv cudaConfig = .error (.cudaError 2)) ∧
    (∃ m, Manager.new hostBuild okEnv hostConfig = .ok m ∧ assetsLoad hostBuild okEnv) :=
  ⟨⟨by decide,
    ((asset_failure_aborts_construction hostBuild missingWallMeshEnv hostConfig).1 "wall"
      (by decide)).1⟩,
   ⟨by decide, Or.inl rfl, by decide,
    (asset_failure_aborts_construction hostBuild missingCubeHullEnv hostConfig).2.1
      "cannot open cube_collision.obj" (by decide) (Or.inl rfl) (by decide)⟩,
   ⟨by decide, rfl, rfl,
    (asset_failure_aborts_construction hostBuild missingCubeHullEnv cudaConfig).2.2.1
      (by decide) rfl rfl⟩,
   ⟨by decide, rfl, rfl, by decide,
    (asset_failure_aborts_construction cudaBuild memsetFailCubeHullEnv cudaConfig).2.2.2.1
      (by decide) rfl rfl (by decide)⟩,
   ⟨_, rfl, (asset_failure_aborts_construction hostBuild okEnv hostConfig).2.2.2.2 _ rfl⟩⟩

/-- C7 as stated fails: the cube hull cannot be loaded, accelerator mode is
requested in a build without accelerator support, and construction aborts
with a diagnostic that names no catalog file and no catalog entry: the mode
is rejected before any hull is loaded. -/
theorem missing_hull_reported_as_missing_cuda_support :
    hullAbort hostBuild missingCubeHullEnv "cube_collision.obj" =
      some "cannot open cube_collision.obj" ∧
    Manager.new hostBuild missingCubeHullEnv cudaConfig =
      .error (.fatal "Madrona was not compiled with CUDA support") ∧
    (∀ e ∈ renderCatalog ++ hullCatalog,
      ¬ mentions "Madrona was not compiled with CUDA support" e.1 ∧
      ¬ mentions "Madrona was not compiled with CUDA support" e.2) :=
  ⟨by decide, rfl, by decide⟩

/-- C4. Every successful catalog load yields exactly seven physical objects
in the order sphere, plane, cube, wall, cylinder, ramp, elongated box: a Sphere
and a Plane primitive followed by five Hull primitives, each built from the
loader's result for its own collision file, with the metadata, AABB and
primitive arrays all of length seven and aligned index by index, each array
given entry by entry; the imported render objects
are seven, in the same order, each the import of its own render file. A
constructed Manager holds these arrays, and hands the render objects to its
backend when rendering is enabled. -/
theorem catalog_order_fixed (b : Build) (env : Env) (storage : StorageType)
    (out : PhysicsLoader) (imported : List ImportedObject)
    (hp : loadPhysicsObjects b env (PhysicsLoader.new env storage 10) = .ok out)
    (hr : importRendererObjs b env = .ok imported) :
    (∃ cube wall cylinder ramp elongated,
      env.loadHullFromDisk (dataPath b "cube_collision.obj") = .ok cube ∧
      env.loadHullFromDisk (dataPath b "wall_collision.obj") = .ok wall ∧
      env.loadHullFromDisk (dataPath b "cylinder_collision.obj") = .ok cylinder ∧
      env.loadHullFromDisk (dataPath b "ramp_collision.obj") = .ok ramp ∧
      env.loadHullFromDisk (dataPath b "elongated_collision.obj") = .ok elongated ∧
      out.prims = [.Sphere 1, .Plane, .Hull cube.collisionMesh, .Hull wall.collisionMesh,
        .Hull cylinder.collisionMesh, .Hull ramp.collisionMesh,
        .Hull elongated.collisionMesh] ∧
      out.aabbs = [⟨⟨-1, -1, -1⟩, ⟨1, 1, 1⟩⟩,
        ⟨⟨-FLT_MAX, -FLT_MAX, -FLT_MAX⟩, ⟨FLT_MAX, FLT_MAX, 0⟩⟩,
        cube.aabb, wall.aabb, cylinder.aabb, ramp.aabb, elongated.aabb]) ∧
    out.prims.map CollisionPrimitive.type =
      [.Sphere, .Plane, .Hull, .Hull, .Hull, .Hull, .Hull] ∧
    out.metadatas.map (fun md => md.invMass) = [1, 0, 1, 0, 1, 1, 1] ∧
    out.numObjs = 7 ∧ out.metadatas.length = 7 ∧ out.aabbs.length = 7 ∧
    out.prims.length = 7 ∧
    (∃ sphere plane cube wall cylinder ramp elongated,
      env.importObject (dataPath b "sphere.obj") = some sphere ∧
      env.importObject (dataPath b "plane.obj") = some plane ∧
      env.importObject (dataPath b "cube_render.obj") = some cube ∧
      env.importObject (dataPath b "wall_render.obj") = some wall ∧
      env.importObject (dataPath b "cylinder_render.obj") = some cylinder ∧
      env.importObject (dataPath b "ramp_render.obj") = some ramp ∧
      env.importObject (dataPath b "elongated_render.obj") = some elongated ∧
      imported = [sphere, plane, cube, wall, cylinder, ramp, elongated]) ∧
    imported.length = 7 ∧
    (∀ cfg m, Manager.new b env cfg = .ok m →
      m.impl_.base.physicsLoader.metadatas = out.metadatas ∧
      m.impl_.base.physicsLoader.aabbs = out.aabbs ∧
      m.impl_.base.physicsLoader.prims = out.prims ∧
      m.impl_.base.physicsLoader.numObjs = out.numObjs ∧
      (cfg.enableRender = true →
        m.renderObjects =
          some (imported.map (fun imported_obj => ⟨imported_obj.meshes⟩)))) ∧
    out.metadatas =
      [{ invInertiaTensor := ⟨2.5, 2.5, 2.5⟩, invMass := 1, muS := 0.5, muD := 0.5 },
       { invInertiaTensor := ⟨0, 0, 0⟩, invMass := 0, muS := 0.5, muD := 0.5 },
       { invInertiaTensor := ⟨1.5, 1.5, 1.5⟩, invMass := 1, muS := 0.5, muD := 0.5 },
       { invInertiaTensor := ⟨0, 0, 0⟩, invMass := 0, muS := 0.5, muD := 0.5 },
       { invInertiaTensor := ⟨0, 0, 1⟩, invMass := 1, muS := 0.5, muD := 0.5 },
       { invInertiaTensor := ⟨1.5, 1.5, 1.5⟩, invMass := 1, muS := 0.5, muD := 0.5 },
       { invInertiaTensor := Vector3.rdiv b.fdiv 12
           ⟨2 * 2 + 1.5 * 1.5, 2 * 2 + 8 * 8, 8 * 8 + 1.5 * 1.5⟩,
         invMass := 1, muS := 0.5, muD := 0.5 }] := by
  obtain ⟨cube, wall, cylinder, ramp, elongated, h2, h3, h4, h5, h6, hout⟩ :=
    loadPhysicsObjects_ok hp
  obtain ⟨o0, o1, o2, o3, o4, o5, o6, i0, i1, i2, i3, i4, i5, i6, himp⟩ :=
    importRendererObjs_ok hr
  have hmgr : ∀ cfg m, Manager.new b env cfg = .ok m →
      m.impl_.base.physicsLoader.metadatas = out.metadatas ∧
      m.impl_.base.physicsLoader.aabbs = out.aabbs ∧
      m.impl_.base.physicsLoader.prims = out.prims ∧
      m.impl_.base.physicsLoader.numObjs = out.numObjs ∧
      (cfg.enableRender = true →
        m.renderObjects =
          some (imported.map (fun imported_obj => ⟨imported_obj.meshes⟩))) := by
    intro cfg m hm
    obtain ⟨imported2, hi, hl, hro⟩ := Manager.new_catalog hm
    rw [hr] at hi
    cases hi
    obtain ⟨c2, w2, y2, r2, e2, b2, b3, b4, b5, b6, hout2⟩ := loadPhysicsObjects_ok hl
    rw [h2] at b2; rw [h3] at b3; rw [h4] at b4; rw [h5] at b5; rw [h6] at b6
    cases b2; cases b3; cases b4; cases b5; cases b6
    rw [hout, hout2]
    refine ⟨rfl, rfl, rfl, rfl, fun he => ?_⟩
    rw [hro, he]; rfl
  subst hout himp
  exact ⟨⟨cube, wall, cylinder, ramp, elongated, h2, h3, h4, h5, h6, rfl, rfl⟩, rfl, rfl,
    rfl, rfl, rfl, rfl, ⟨o0, o1, o2, o3, o4, o5, o6, i0, i1, i2, i3, i4, i5, i6, rfl⟩, rfl,
    hmgr, rfl⟩

/-- C4 on the host, everything loading. -/
theorem catalog_order_fixed_witness :
    ∃ out imported,
    loadPhysicsObjects hostBuild okEnv (PhysicsLoader.new okEnv .CPU 10) = .ok out ∧
    importRendererObjs hostBuild okEnv = .ok imported ∧
    out.prims.map CollisionPrimitive.type =
      [.Sphere, .Plane, .Hull, .Hull, .Hull, .Hull, .Hull] ∧
    out.metadatas.map (fun md => md.invMass) = [1, 0, 1, 0, 1, 1, 1] ∧
    out.numObjs = 7 ∧ out.metadatas.length = 7 ∧ out.aabbs.length = 7 ∧
    out.prims.length = 7 ∧ imported.length = 7 ∧
    out.metadatas =
      [{ invInertiaTensor := ⟨2.5, 2.5, 2.5⟩, invMass := 1, muS := 0.5, muD := 0.5 },
       { invInertiaTensor := ⟨0, 0, 0⟩, invMass := 0, muS := 0.5, muD := 0.5 },
       { invInertiaTensor := ⟨1.5, 1.5, 1.5⟩, invMass := 1, muS := 0.5, muD := 0.5 },
       { invInertiaTensor := ⟨0, 0, 0⟩, invMass := 0, muS := 0.5, muD := 0.5 },
       { invInertiaTensor := ⟨0, 0, 1⟩, invMass := 1, muS := 0.5, muD := 0.5 },
       { invInertiaTensor := ⟨1.5, 1.5, 1.5⟩, invMass := 1, muS := 0.5, muD := 0.5 },
       { invInertiaTensor := Vector3.rdiv hostBuild.fdiv 12
           ⟨2 * 2 + 1.5 * 1.5, 2 * 2 + 8 * 8, 8 * 8 + 1.5 * 1.5⟩,
         invMass := 1, muS := 0.5, muD := 0.5 }] :=
  ⟨_, _, rfl, rfl,
    have h := catalog_order_fixed hostBuild okEnv .CPU _ _ rfl rfl
    ⟨h.2.1, h.2.2.1, h.2.2.2.1, h.2.2.2.2.1, h.2.2.2.2.2.1, h.2.2.2.2.2.2.1,
      h.2.2.2.2.2.2.2.2.1, h.2.2.2.2.2.2.2.2.2.2⟩⟩

/-- C9, amended. For every hull entry the AABB and the collision mesh in the
loaded table are the loader's result for the file of that entry. The inverse
inertia tensor is not taken from the loader: for cube, wall and elongated box
it is written in `loadPhysicsObjects`, as are the inertia and the AABB of
sphere and plane. (Nothing is said of the cylinder and ramp tensors.) -/
theorem hull_aabb_from_loader_inertia_direct (b : Build) (env : Env) (storage : StorageType)
    (out : PhysicsLoader)
    (hp : loadPhysicsObjects b env (PhysicsLoader.new env storage 10) = .ok out) :
    (∃ cube wall cylinder ramp elongated,
      env.loadHullFromDisk (dataPath b "cube_collision.obj") = .ok cube ∧
      env.loadHullFromDisk (dataPath b "wall_collision.obj") = .ok wall ∧
      env.loadHullFromDisk (dataPath b "cylinder_collision.obj") = .ok cylinder ∧
      env.loadHullFromDisk (dataPath b "ramp_collision.obj") = .ok ramp ∧
      env.loadHullFromDisk (dataPath b "elongated_collision.obj") = .ok elongated ∧
      out.aabbs = [⟨⟨-1, -1, -1⟩, ⟨1, 1, 1⟩⟩,
        ⟨⟨-FLT_MAX, -FLT_MAX, -FLT_MAX⟩, ⟨FLT_MAX, FLT_MAX, 0⟩⟩,
        cube.aabb, wall.aabb, cylinder.aabb, ramp.aabb, elongated.aabb] ∧
      out.prims = [.Sphere 1, .Plane, .Hull cube.collisionMesh, .Hull wall.collisionMesh,
        .Hull cylinder.collisionMesh, .Hull ramp.collisionMesh,
        .Hull elongated.collisionMesh]) ∧
    out.metadatas[0]?.map (fun md => md.invInertiaTensor) = some ⟨2.5, 2.5, 2.5⟩ ∧
    out.metadatas[1]?.map (fun md => md.invInertiaTensor) = some ⟨0, 0, 0⟩ ∧
    out.metadatas[2]?.map (fun md => md.invInertiaTensor) = some ⟨1.5, 1.5, 1.5⟩ ∧
    out.metadatas[3]?.map (fun md => md.invInertiaTensor) = some ⟨0, 0, 0⟩ ∧
    out.metadatas[6]?.map (fun md => md.invInertiaTensor) =
      some (Vector3.rdiv b.fdiv 12
        ⟨2 * 2 + 1.5 * 1.5, 2 * 2 + 8 * 8, 8 * 8 + 1.5 * 1.5⟩) := by
  obtain ⟨cube, wall, cylinder, ramp, elongated, h2, h3, h4, h5, h6, hout⟩ :=
    loadPhysicsObjects_ok hp
  subst hout
  exact ⟨⟨cube, wall, cylinder, ramp, elongated, h2, h3, h4, h5, h6, rfl, rfl⟩, rfl, rfl,
    rfl, rfl, rfl⟩

/-- C9, amended, with the loader returning the larger boxes. -/
theorem hull_aabb_from_loader_inertia_direct_witness :
    ∃ out,
    loadPhysicsObjects hostBuild otherHullEnv (PhysicsLoader.new otherHullEnv .CPU 10) =
      .ok out ∧
    out.aabbs[2]? = some ⟨⟨-4, -4, -4⟩, ⟨4, 4, 4⟩⟩ ∧
    out.metadatas[2]?.map (fun md => md.invInertiaTensor) = some ⟨1.5, 1.5, 1.5⟩ ∧
    out.metadatas[6]?.map (fun md => md.invInertiaTensor) =
      some (Vector3.rdiv hostBuild.fdiv 12
        ⟨2 * 2 + 1.5 * 1.5, 2 * 2 + 8 * 8, 8 * 8 + 1.5 * 1.5⟩) :=
  ⟨_, rfl, rfl,
    have h := hull_aabb_from_loader_inertia_direct hostBuild otherHullEnv .CPU _ rfl
    ⟨h.2.2.2.1, h.2.2.2.2.2⟩⟩

/-- C9 as stated fails: two loaders whose results differ on every hull file
give different AABBs and meshes for the hull entries but the same inverse
inertia tensors, the ones written in `loadPhysicsObjects`. -/
theorem hull_inertia_ignores_loader :
    ∃ out1 out2,
    loadPhysicsObjects hostBuild okEnv (PhysicsLoader.new okEnv .CPU 10) = .ok out1 ∧
    loadPhysicsObjects hostBuild otherHullEnv (PhysicsLoader.new otherHullEnv .CPU 10) =
      .ok out2 ∧
    (∀ e ∈ hullCatalog,
      (okEnv.loadHullFromDisk (dataPath hostBuild e.1)).toOption ≠
        (otherHullEnv.loadHullFromDisk (dataPath hostBuild e.1)).toOption) ∧
    out1.aabbs.drop 2 ≠ out2.aabbs.drop 2 ∧
    out1.prims.drop 2 ≠ out2.prims.drop 2 ∧
    out1.metadatas.map (fun md => md.invInertiaTensor) =
      out2.metadatas.map (fun md => md.invInertiaTensor) ∧
    (out1.metadatas.drop 2).map (fun md => md.invInertiaTensor) =
      [⟨1.5, 1.5, 1.5⟩, ⟨0, 0, 0⟩, ⟨0, 0, 1⟩, ⟨1.5, 1.5, 1.5⟩,
       Vector3.rdiv hostBuild.fdiv 12
         ⟨2 * 2 + 1.5 * 1.5, 2 * 2 + 8 * 8, 8 * 8 + 1.5 * 1.5⟩] := by
  refine ⟨_, _, rfl, rfl, ?_, ?_, ?_, rfl, rfl⟩
  · decide
  · decide
  · decide

/-- C11. On every constructed Manager, in either execution mode, the depth and
rgb views carry `cfg.gpuID` as their device tag, whatever the mode. The state
views, built by `exportStateTensor`, carry it only in accelerator mode: in
host mode every state view of the same Manager carries the host tag while
both image views are tagged with device `cfg.gpuID`. -/
theorem image_views_tagged_with_device_in_both_modes (b : Build) (env : Env) (cfg : Config)
    (mode : ExecMode) (m : Manager)
    (h : Manager.new b env { cfg with execMode := mode } = .ok m) :
    (∃ t calls, m.depthTensor b env = .ok (t, calls) ∧ t.gpuID = some cfg.gpuID) ∧
    (∃ t calls, m.rgbTensor b env = .ok (t, calls) ∧ t.gpuID = some cfg.gpuID) ∧
    (∀ v ∈ stateViews, ∃ t calls, m.view b env v = .ok (t, calls) ∧
      t.gpuID = if mode = .CUDA then some cfg.gpuID else none) ∧
    (mode = .CPU →
      ∀ v ∈ stateViews, ∃ t calls, m.view b env v = .ok (t, calls) ∧ t.gpuID = none) := by
  obtain ⟨hcoh, hcfg⟩ := Manager.new_coherent h
  have hstate : ∀ v ∈ stateViews, ∃ t calls, m.view b env v = .ok (t, calls) ∧
      t.gpuID = if mode = .CUDA then some cfg.gpuID else none := by
    intro v hv
    simp only [stateViews, List.mem_cons, List.mem_singleton, List.not_mem_nil,
      or_false] at hv
    rcases hv with e | e | e | e | e | e | e | e | e | e | e | e | e | e | e <;> subst e <;>
      simp [Manager.view, Manager.resetTensor, Manager.doneTensor,
        Manager.prepCounterTensor, Manager.actionTensor, Manager.rewardTensor,
        Manager.agentTypeTensor, Manager.agentMaskTensor, Manager.agentDataTensor,
        Manager.boxDataTensor, Manager.rampDataTensor, Manager.visibleAgentsMaskTensor,
        Manager.visibleBoxesMaskTensor, Manager.visibleRampsMaskTensor,
        Manager.globalPositionsTensor, Manager.lidarTensor,
        Manager.exportStateTensor_coherent env hcoh, hcfg]
  refine ⟨⟨_, _, Manager.depthTensor_coherent env hcoh, by simp [hcfg]⟩,
    ⟨_, _, Manager.rgbTensor_coherent env hcoh, by simp [hcfg]⟩, hstate, fun hm v hv => ?_⟩
  obtain ⟨t, calls, hview, htag⟩ := hstate v hv
  exact ⟨t, calls, hview, by rw [htag, hm]; rfl⟩

/-- C11 on the host with device 1 named: both image views are tagged with
device 1 and every state view with the host tag; on the accelerator all carry
device 1. -/
theorem image_views_tagged_with_device_in_both_modes_witness :
    (∃ m, Manager.new hostBuild okEnv hostConfig = .ok m ∧
      (∃ t calls, m.depthTensor hostBuild okEnv = .ok (t, calls) ∧ t.gpuID = some 1) ∧
      (∃ t calls, m.rgbTensor hostBuild okEnv = .ok (t, calls) ∧ t.gpuID = some 1) ∧
      (ExecMode.CPU = .CPU →
        ∀ v ∈ stateViews, ∃ t calls, m.view hostBuild okEnv v = .ok (t, calls) ∧
          t.gpuID = none)) ∧
    (∃ m, Manager.new cudaBuild okEnv cudaConfig = .ok m ∧
      (∃ t calls, m.depthTensor cudaBuild okEnv = .ok (t, calls) ∧ t.gpuID = some 1) ∧
      (∃ t calls, m.rgbTensor cudaBuild okEnv = .ok (t, calls) ∧ t.gpuID = some 1) ∧
      (∀ v ∈ stateViews, ∃ t calls, m.view cudaBuild okEnv v = .ok (t, calls) ∧
        t.gpuID = some 1)) :=
  ⟨⟨_, rfl,
     have h := image_views_tagged_with_device_in_both_modes hostBuild okEnv hostConfig .CPU
       _ rfl
     ⟨h.1, h.2.1, h.2.2.2⟩⟩,
   ⟨_, rfl,
     have h := image_views_tagged_with_device_in_both_modes cudaBuild okEnv hostConfig .CUDA
       _ rfl
     ⟨h.1, h.2.1, h.2.2.1⟩⟩⟩

end GPUHideSeek
